import Mathlib

/-!
Shallow embedding of the `aiida-workgraph-web-ui` backend
(`backend/app/datanode.py`, `backend/app/workgraph.py`, `backend/app/api.py`).

External effects (the AiiDA database, `json.loads`, `delete_nodes`,
process-control calls, `workgraph_to_short_json`, ...) are modelled as
explicit parameters; Python exceptions are modelled by the `Exc` type and
fallible code by `Except Exc`.  The FastAPI routing layer is modelled by the
validation / dispatch functions below.
-/

set_option maxHeartbeats 1000000

/-- Python exceptions that can arise in the embedded handlers.  `httpExc`
is fastapi/starlette `HTTPException(status_code, detail)`; the others are
builtin Python exception classes carrying their message. -/
inductive Exc where
  | httpExc (status : Nat) (detail : String)
  | keyError (key : String)
  | typeError (msg : String)
  | valueError (msg : String)
  | attributeError (msg : String)
  | nameError (msg : String)
  deriving Repr, DecidableEq

/-- A single-quote character as a string (used by Python `str(KeyError(k))`,
which renders the key in `repr` form). -/
def sQuote : String := String.singleton (Char.ofNat 39)

/-- Python `str(e)` for the exceptions of `Exc`.  Starlette defines
`HTTPException.__str__` as `f"{status_code}: {detail}"`; `str(KeyError(k))`
is the repr of the key; the builtin exceptions render their message. -/
def excStr : Exc → String
  | .httpExc s d => toString s ++ ": " ++ d
  | .keyError k => sQuote ++ k ++ sQuote
  | .typeError m => m
  | .valueError m => m
  | .attributeError m => m
  | .nameError m => m

/-- JSON values as decoded by Python `json.loads` (floats are not used by
any claim and are left out of the model). -/
inductive PyVal where
  | none
  | bool (b : Bool)
  | int (n : Int)
  | str (s : String)
  | list (xs : List PyVal)
  | dict (kvs : List (String × PyVal))
  deriving Repr

/-- Python truthiness of a decoded JSON value. -/
def truthy : PyVal → Bool
  | .none => false
  | .bool b => b
  | .int n => n != 0
  | .str s => !s.isEmpty
  | .list xs => !xs.isEmpty
  | .dict kvs => !kvs.isEmpty

mutual
/-- Python `repr` of a decoded JSON value (ASCII-level approximation:
string escapes are not reproduced, only the surrounding quotes). -/
def pyRepr : PyVal → String
  | .none => "None"
  | .bool true => "True"
  | .bool false => "False"
  | .int n => toString n
  | .str s => sQuote ++ s ++ sQuote
  | .list xs => "[" ++ pyReprList xs ++ "]"
  | .dict kvs => "\x7b" ++ pyReprDict kvs ++ "\x7d"

/-- Comma-separated reprs of list elements. -/
def pyReprList : List PyVal → String
  | [] => ""
  | [x] => pyRepr x
  | x :: xs => pyRepr x ++ ", " ++ pyReprList xs

/-- Comma-separated reprs of dict entries. -/
def pyReprDict : List (String × PyVal) → String
  | [] => ""
  | [(k, v)] => sQuote ++ k ++ sQuote ++ ": " ++ pyRepr v
  | (k, v) :: kvs => sQuote ++ k ++ sQuote ++ ": " ++ pyRepr v ++ ", " ++ pyReprDict kvs
end

/-- Python `str` of a decoded JSON value (as used by f-string interpolation
`f"%... value ...%"`): like `repr` except that strings print bare. -/
def pyStr : PyVal → String
  | .str s => s
  | v => pyRepr v

/-- Numeric value of a list of decimal digit characters. -/
def natOfDigits : List Char → Nat :=
  List.foldl (fun n c => n * 10 + (c.toNat - 48)) 0

/-- ASCII whitespace as stripped by Python `int(str)` (space, tab,
newline, carriage return, vertical tab, form feed). -/
def pyIsSpace (c : Char) : Bool :=
  c = ' ' || c = '\t' || c = '\n' || c = '\r' || c.toNat = 11 || c.toNat = 12

/-- The digit-group grammar of Python integer literals accepted by
`int(str)`: one or more decimal digits with single underscores allowed
between digits (`"1_0"` parses, `"_1"`, `"1_"` and `"1__0"` do not).
Returns the digits with the underscores removed. -/
def digitsWithUnderscores : List Char → Option (List Char)
  | [] => Option.none
  | [c] => if c.isDigit then some [c] else Option.none
  | c :: c2 :: cs =>
    if c.isDigit then
      if c2 = '_' then (digitsWithUnderscores cs).map (fun ds => c :: ds)
      else (digitsWithUnderscores (c2 :: cs)).map (fun ds => c :: ds)
    else Option.none

/-- Python `int(str)`: leading and trailing whitespace is stripped, then
an optional sign followed by digits with single underscores between
digits (ASCII-level; non-ASCII digits and whitespace are not modelled);
`Option.none` models the raised `ValueError`. -/
def pyParseInt (s : String) : Option Int :=
  match ((s.data.dropWhile pyIsSpace).reverse.dropWhile pyIsSpace).reverse
    with
  | '-' :: ds => (digitsWithUnderscores ds).map (fun l =>
      -(natOfDigits l : Int))
  | '+' :: ds => (digitsWithUnderscores ds).map (fun l =>
      (natOfDigits l : Int))
  | ds => (digitsWithUnderscores ds).map (fun l => (natOfDigits l : Int))

/-- Python `int(value)` on a decoded JSON value: parses strings, passes
integers through, converts booleans, and raises `TypeError` on `None`,
lists and dicts. -/
def pyInt : PyVal → Except Exc Int
  | .str s =>
    match pyParseInt s with
    | some n => .ok n
    | Option.none => .error (.valueError ("invalid literal for int(): " ++ s))
  | .int n => .ok n
  | .bool b => .ok (if b then 1 else 0)
  | .none => .error (.typeError "int() argument must be a string, not NoneType")
  | .list _ => .error (.typeError "int() argument must be a string, not list")
  | .dict _ => .error (.typeError "int() argument must be a string, not dict")

/-- Python `str.isdigit` (ASCII digits). -/
def pyIsdigit (s : String) : Bool := !s.isEmpty && s.data.all Char.isDigit

/-- Python `str.split(sep)` over the characters, for a one-character
separator: every occurrence starts a new group, the empty string yields
one empty group. -/
def pySplitAux (sep : Char) : List Char → List (List Char)
  | [] => [[]]
  | c :: cs =>
    match pySplitAux sep cs with
    | [] => if c = sep then [[], []] else [[c]]
    | g :: gs => if c = sep then [] :: g :: gs else (c :: g) :: gs

/-- Python `path.split("/")` (one-character separator). -/
def pySplit (s : String) (sep : Char) : List String :=
  (pySplitAux sep s.data).map List.asString

/-- Python `str.upper()` on one ASCII character. -/
def asciiUpper (c : Char) : Char :=
  if 'a' ≤ c ∧ c ≤ 'z' then Char.ofNat (c.toNat - 32) else c

/-- Python `str.upper()` (ASCII-level). -/
def pyUpper (s : String) : String := (s.data.map asciiUpper).asString

/-- Python iteration `for x in v`: lists yield their elements, strings their
characters, dicts their keys; other values raise `TypeError`. -/
def iterElems : PyVal → Except Exc (List PyVal)
  | .list xs => .ok xs
  | .str s => .ok (s.data.map (fun c => .str (String.singleton c)))
  | .dict kvs => .ok (kvs.map (fun kv => .str kv.1))
  | _ => .error (.typeError "object is not iterable")

/-- Python `d[k] = v` on an insertion-ordered dict represented as an
association list: overwrite in place if the key exists, else append. -/
def dictSet {α : Type} (l : List (String × α)) (k : String) (v : α) :
    List (String × α) :=
  match l with
  | [] => [(k, v)]
  | (k', v') :: rest =>
    if k' = k then (k, v) :: rest else (k', v') :: dictSet rest k v

/-- SQL `LIKE` matching over characters (wildcards `%` and `_`), modelling
the semantics AiiDA's QueryBuilder gives to a `like` filter. -/
def likeChars : List Char → List Char → Bool
  | [], [] => true
  | [], _ :: _ => false
  | '%' :: ps, [] => likeChars ps []
  | '%' :: ps, c :: s => likeChars ps (c :: s) || likeChars ('%' :: ps) s
  | '_' :: ps, _ :: s => likeChars ps s
  | '_' :: _, [] => false
  | p :: ps, c :: s => p = c && likeChars ps s
  | _ :: _, [] => false
  termination_by p s => (p.length, s.length)

/-- SQL `LIKE` on strings. -/
def likeMatch (pat s : String) : Bool := likeChars pat.data s.data

/-- Value of one database column as projected by the QueryBuilder. -/
inductive ColV where
  | int (n : Int)
  | str (s : String)
  deriving Repr, DecidableEq

/-- Ordering on column values used for `order_by` (values of distinct kinds
never occur in one column). -/
def ColV.le : ColV → ColV → Bool
  | .int a, .int b => a ≤ b
  | .str a, .str b => a ≤ b
  | .int _, .str _ => true
  | .str _, .int _ => false

/-- One condition of an AiiDA filter dict: either an equality against an
integer (only ever used on the `id` column here) or a `like` pattern. -/
inductive Leaf where
  | eqId (n : Int)
  | like (pat : String)
  deriving Repr, DecidableEq

/-- A plain AiiDA filter dict mapping column names to conditions. -/
abbrev PlainFilter := List (String × Leaf)

/-- One entry of an `"and"` block as built by the datanode handler: either a
plain dict or an `"or"` block of plain dicts. -/
inductive FilterBlock where
  | plain (f : PlainFilter)
  | orB (alts : List PlainFilter)
  deriving Repr, DecidableEq

/-- The overall filter value passed to `qb.append`: a plain dict, or the
`{"and": [...]}` combination built when quick-filter values are present. -/
inductive Filters where
  | plain (f : PlainFilter)
  | conj (blocks : List FilterBlock)
  deriving Repr, DecidableEq

/-- Rows of the `Data` table with the columns this backend projects. -/
structure DataRow where
  id : Int
  uuid : String
  ctime : Int
  node_type : String
  label : String
  description : String
  deriving Repr, DecidableEq

/-- Column access of a `Data` row by AiiDA column name. -/
def DataRow.col (r : DataRow) : String → ColV
  | "id" => .int r.id
  | "ctime" => .int r.ctime
  | "node_type" => .str r.node_type
  | "label" => .str r.label
  | "description" => .str r.description
  | _ => .str ""

/-- Does a row satisfy one (column, condition) pair? -/
def leafHolds {Row : Type} (col : Row → String → ColV) (r : Row) :
    String × Leaf → Bool
  | (c, .eqId n) => col r c == .int n
  | (c, .like pat) =>
    match col r c with
    | .str s => likeMatch pat s
    | .int _ => false

/-- Does a row satisfy a plain filter dict (conjunction of its entries)? -/
def plainHolds {Row : Type} (col : Row → String → ColV) (r : Row)
    (f : PlainFilter) : Bool :=
  f.all (leafHolds col r)

/-- Does a row satisfy one block of an `"and"` combination? -/
def blockHolds {Row : Type} (col : Row → String → ColV) (r : Row) :
    FilterBlock → Bool
  | .plain f => plainHolds col r f
  | .orB alts => alts.any (plainHolds col r)

/-- Does a row satisfy the overall filter? -/
def filtersHold {Row : Type} (col : Row → String → ColV) (r : Row) :
    Filters → Bool
  | .plain f => plainHolds col r f
  | .conj blocks => blocks.all (blockHolds col r)

/-- Comparator used by `qb.order_by({tag: {colName: sortOrder}})`. -/
def rowLe {Row : Type} (col : Row → String → ColV) (colName sortOrder : String)
    (r1 r2 : Row) : Bool :=
  if sortOrder = "desc" then ColV.le (col r2 colName) (col r1 colName)
  else ColV.le (col r1 colName) (col r2 colName)

/-- Insert into a list sorted by `le`. -/
def insertLe {α : Type} (le : α → α → Bool) (a : α) : List α → List α
  | [] => [a]
  | b :: l => if le a b then a :: b :: l else b :: insertLe le a l

/-- Sorting model of the database's `ORDER BY`: an executable insertion
sort by the boolean comparator `le`. -/
def sortByLe {α : Type} (le : α → α → Bool) : List α → List α
  | [] => []
  | a :: l => insertLe le a (sortByLe le l)

/-- The `field_map` of `read_datanode_data` (DataGrid field to AiiDA
column). -/
def field_map : List (String × String) :=
  [("pk", "id"), ("ctime", "ctime"), ("node_type", "node_type"),
   ("label", "label"), ("description", "description")]

/-- One iteration of the `for item in fm.get("items", [])` loop of
`read_datanode_data` (datanode.py lines 35-64): returns the updated filter
dict, skipping items exactly where the source executes `continue`.  The
membership test `field not in field_map` hashes the field, so a JSON
array or object field raises `TypeError` (unhashable type); any other
non-string field is hashable, absent from the map and skipped. -/
def translateItem (filters : PlainFilter) (item : PyVal) :
    Except Exc PlainFilter :=
  match item with
  | .dict kvs =>
    let field := (List.lookup "field" kvs).getD .none
    let value := (List.lookup "value" kvs).getD .none
    let operator := (List.lookup "operator" kvs).getD (.str "contains")
    if !truthy value then .ok filters
    else
      match field with
      | .str f =>
        match List.lookup f field_map with
        | Option.none => .ok filters
        | some colName =>
          if colName = "id" then
            match pyInt value with
            | .ok n => .ok (dictSet filters "id" (.eqId n))
            | .error (.valueError _) => .ok filters
            | .error e => .error e
          else
            match operator with
            | .str op =>
              if op = "contains" ∨ op = "equals" ∨ op = "is" then
                .ok (dictSet filters colName (.like ("%" ++ pyStr value ++ "%")))
              else .ok filters
            | _ => .ok filters
      | .list _ => .error (.typeError ("unhashable type: " ++ sQuote ++
          "list" ++ sQuote))
      | .dict _ => .error (.typeError ("unhashable type: " ++ sQuote ++
          "dict" ++ sQuote))
      | _ => .ok filters
  | _ => .error (.attributeError "object has no attribute get")

/-- One iteration of the quick-filter loop of `read_datanode_data`
(datanode.py lines 70-80), building the `or` block for one value. -/
def mkOrBlock (value : PyVal) : Except Exc (List PlainFilter) := do
  let like := Leaf.like ("%" ++ pyStr value ++ "%")
  let first ←
    match value with
    | .str s =>
      pure (if pyIsdigit s then ([("id", Leaf.eqId ((pyParseInt s).getD 0))] :
        PlainFilter) else [])
    | _ => Except.error (.attributeError "object has no attribute isdigit")
  pure [first, [("node_type", like)], [("label", like)], [("description", like)]]

/-- The filter-translation part of `read_datanode_data` (datanode.py lines
27-86): `json.loads` is passed in as `jsonLoads` (`Option.none` models a
`JSONDecodeError`).  Note the Python guard is `if filterModel:`, so an
empty string skips translation entirely. -/
def getFilters (jsonLoads : String → Option PyVal)
    (filterModel : Option String) : Except Exc Filters :=
  match filterModel with
  | Option.none => .ok (.plain [])
  | some s =>
    if s = "" then .ok (.plain [])
    else
      match jsonLoads s with
      | Option.none => .error (.httpExc 400 "Invalid filterModel JSON")
      | some fm =>
        match fm with
        | .dict kvs => do
          let itemsVal := (List.lookup "items" kvs).getD (.list [])
          let items ← iterElems itemsVal
          let filters ← items.foldlM translateItem []
          let qfVal := (List.lookup "quickFilterValues" kvs).getD (.list [])
          if truthy qfVal then do
            let qf ← iterElems qfVal
            let blocks ← qf.mapM mkOrBlock
            if !filters.isEmpty then
              pure (Filters.conj (FilterBlock.plain filters ::
                blocks.map FilterBlock.orB))
            else
              pure (Filters.conj (blocks.map FilterBlock.orB))
          else pure (Filters.plain filters)
        | _ => .error (.attributeError "object has no attribute get")

/-- The `col_map` of `read_datanode_data` (datanode.py lines 97-103). -/
def datanode_col_map : List (String × String) :=
  [("pk", "id"), ("ctime", "ctime"), ("node_type", "node_type"),
   ("label", "label"), ("description", "description")]

/-- A page row of `/api/datanode-data` with the documented columns. -/
structure DataPageRow where
  pk : Int
  uuid : String
  ctime : String
  node_type : String
  label : String
  description : String
  deriving Repr, DecidableEq

/-- The response shape of the list endpoints. -/
structure Page (α : Type) where
  total : Nat
  data : List α
  deriving Repr, DecidableEq

/-- Row projection of `read_datanode_data` (datanode.py lines 108-118);
`time_ago` lives in the repository's `utils.py` (not part of the sources
here) and is passed in as `timeAgo`. -/
def projectDataRow (timeAgo : Int → String) (r : DataRow) : DataPageRow :=
  { pk := r.id, uuid := r.uuid, ctime := timeAgo r.ctime,
    node_type := r.node_type, label := r.label, description := r.description }

/-- Dict-subscript access `d[k]` raising `KeyError` when absent. -/
def keyGet {α : Type} (o : Option α) (k : String) : Except Exc α :=
  match o with
  | some v => .ok v
  | Option.none => .error (.keyError k)

/-- Handler body of `GET /api/datanode-data` (datanode.py lines 10-119).
The database is modelled as the list `db` of `Data` rows; the QueryBuilder
pipeline becomes filter, `mergeSort` by the mapped column, `count` as the
length of the matching rows, then `offset`/`limit` as `drop`/`take`. -/
def read_datanode_data (db : List DataRow) (timeAgo : Int → String)
    (jsonLoads : String → Option PyVal) (skip limit : Int)
    (sortField sortOrder : String) (filterModel : Option String) :
    Except Exc (Page DataPageRow) := do
  let filters ← getFilters jsonLoads filterModel
  let matching := db.filter (fun r => filtersHold DataRow.col r filters)
  let colName ← keyGet (List.lookup sortField datanode_col_map) sortField
  let sorted := sortByLe (rowLe DataRow.col colName sortOrder) matching
  let total := sorted.length
  let rows := (sorted.drop skip.toNat).take limit.toNat
  pure { total := total, data := rows.map (projectDataRow timeAgo) }

/-- Python `str.title()` (ASCII-level): an alphabetic character is
uppercased when the previous character is not alphabetic and lowercased
otherwise; other characters are kept. -/
def pyTitleAux : Bool → List Char → List Char
  | _, [] => []
  | prevAlpha, c :: cs =>
    if c.isAlpha then
      (if prevAlpha then c.toLower else c.toUpper) :: pyTitleAux true cs
    else c :: pyTitleAux false cs

/-- Python `str.title()` on strings. -/
def pyTitle (s : String) : String := (pyTitleAux false s.data).asString

/-- Rows of the `WorkGraphNode` table with the columns projected by
`read_workgraph_data` (workgraph.py lines 39-55). -/
structure WorkRow where
  id : Int
  uuid : String
  ctime : Int
  process_label : String
  process_state : String
  process_status : String
  exit_status : Int
  exit_message : String
  label : String
  description : String
  deriving Repr, DecidableEq

/-- Column access of a `WorkGraphNode` row by AiiDA column name. -/
def WorkRow.col (r : WorkRow) : String → ColV
  | "id" => .int r.id
  | "ctime" => .int r.ctime
  | "attributes.process_label" => .str r.process_label
  | "attributes.process_state" => .str r.process_state
  | "attributes.process_status" => .str r.process_status
  | "attributes.exit_status" => .int r.exit_status
  | "attributes.exit_message" => .str r.exit_message
  | "label" => .str r.label
  | "description" => .str r.description
  | _ => .str ""

/-- The `col_map` of `read_workgraph_data` (workgraph.py lines 57-67). -/
def workgraph_col_map : List (String × String) :=
  [("pk", "id"), ("ctime", "ctime"),
   ("process_label", "attributes.process_label"),
   ("state", "attributes.process_state"),
   ("status", "attributes.process_status"),
   ("exit_status", "attributes.exit_status"),
   ("exit_message", "attributes.exit_message"),
   ("label", "label"), ("description", "description")]

/-- A page row of `/api/workgraph-data` with the documented columns. -/
structure WorkPageRow where
  pk : Int
  uuid : String
  ctime : String
  process_label : String
  state : String
  status : String
  exit_status : Int
  exit_message : String
  label : String
  description : String
  deriving Repr, DecidableEq

/-- Row projection of `read_workgraph_data` (workgraph.py lines 73-87):
note `state.title()`. -/
def projectWorkRow (timeAgo : Int → String) (r : WorkRow) : WorkPageRow :=
  { pk := r.id, uuid := r.uuid, ctime := timeAgo r.ctime,
    process_label := r.process_label, state := pyTitle r.process_state,
    status := r.process_status, exit_status := r.exit_status,
    exit_message := r.exit_message, label := r.label,
    description := r.description }

/-- Filter resolution of `read_workgraph_data` (workgraph.py lines 33-37).
`translate_datagrid_filter_json` lives in the repository's `utils.py` (not
part of the sources here) and is passed in as the abstract row-predicate
producer `translateWG`; the Python guard is `if filterModel:`, so `None`
and the empty string both leave the filters empty. -/
def resolveWGFilter (translateWG : String → Except Exc (WorkRow → Bool)) :
    Option String → Except Exc (WorkRow → Bool)
  | Option.none => .ok (fun _ => true)
  | some s => if s = "" then .ok (fun _ => true) else translateWG s

/-- Handler body of `GET /api/workgraph-data` (workgraph.py lines 13-88):
the QueryBuilder pipeline over the modelled database `db`, identical in
contract to `read_datanode_data`. -/
def read_workgraph_data (db : List WorkRow) (timeAgo : Int → String)
    (translateWG : String → Except Exc (WorkRow → Bool)) (skip limit : Int)
    (sortField sortOrder : String) (filterModel : Option String) :
    Except Exc (Page WorkPageRow) := do
  let pred ← resolveWGFilter translateWG filterModel
  let matching := db.filter pred
  let colName ← keyGet (List.lookup sortField workgraph_col_map) sortField
  let sorted := sortByLe (rowLe WorkRow.col colName sortOrder) matching
  let total := sorted.length
  let rows := (sorted.drop skip.toNat).take limit.toNat
  pure { total := total, data := rows.map (projectWorkRow timeAgo) }

/-- The `sortField` values accepted by the `Query` pattern of
`read_datanode_data` (datanode.py line 13): the regular expression
`^(pk|ctime|node_type|label|description)$` is exactly membership in this
list. -/
def datanode_sort_fields : List String :=
  ["pk", "ctime", "node_type", "label", "description"]

/-- The `sortField` values accepted by the `Query` pattern of
`read_workgraph_data` (workgraph.py lines 16-18). -/
def workgraph_sort_fields : List String :=
  ["pk", "ctime", "process_label", "state", "label", "description"]

/-- Validated query parameters of the two list endpoints. -/
structure ListQueryParams where
  skip : Int
  limit : Int
  sortField : String
  sortOrder : String
  deriving Repr, DecidableEq

/-- FastAPI's validation of the declared `Query(...)` parameters of the
list endpoints: missing parameters take the declared defaults
(`skip=0`, `limit=15`, `sortField="pk"`, `sortOrder="desc"`), then
`ge=0` / `gt=0, le=500` / the two regex patterns are enforced; a violation
is rejected with a 422 validation error before the handler body runs. -/
def validateListParams (sortFields : List String)
    (skip limit : Option Int) (sortField sortOrder : Option String) :
    Except Exc ListQueryParams :=
  let skip := skip.getD 0
  let limit := limit.getD 15
  let sortField := sortField.getD "pk"
  let sortOrder := sortOrder.getD "desc"
  if skip < 0 then
    .error (.httpExc 422 "skip: Input should be greater than or equal to 0")
  else if limit ≤ 0 then
    .error (.httpExc 422 "limit: Input should be greater than 0")
  else if 500 < limit then
    .error (.httpExc 422 "limit: Input should be less than or equal to 500")
  else if sortField ∉ sortFields then
    .error (.httpExc 422 "sortField: String should match pattern")
  else if sortOrder ∉ ["asc", "desc"] then
    .error (.httpExc 422 "sortOrder: String should match pattern")
  else
    .ok { skip := skip, limit := limit, sortField := sortField,
          sortOrder := sortOrder }

/-- The full route `GET /api/datanode-data`: FastAPI parameter validation
followed by the handler body. -/
def datanode_endpoint (db : List DataRow) (timeAgo : Int → String)
    (jsonLoads : String → Option PyVal) (skip limit : Option Int)
    (sortField sortOrder : Option String) (filterModel : Option String) :
    Except Exc (Page DataPageRow) := do
  let p ← validateListParams datanode_sort_fields skip limit sortField sortOrder
  read_datanode_data db timeAgo jsonLoads p.skip p.limit p.sortField
    p.sortOrder filterModel

/-- The full route `GET /api/workgraph-data`: FastAPI parameter validation
followed by the handler body. -/
def workgraph_endpoint (db : List WorkRow) (timeAgo : Int → String)
    (translateWG : String → Except Exc (WorkRow → Bool))
    (skip limit : Option Int) (sortField sortOrder : Option String)
    (filterModel : Option String) : Except Exc (Page WorkPageRow) := do
  let p ← validateListParams workgraph_sort_fields skip limit sortField
    sortOrder
  read_workgraph_data db timeAgo translateWG p.skip p.limit p.sortField
    p.sortOrder filterModel

/-- The `metadata` dict of a stored task (only its `node_type` entry is
read by the handlers). -/
structure TaskMeta where
  node_type : String
  deriving Repr, DecidableEq

/-- A link dict with the four socket/node entries the handlers copy. -/
structure Link where
  from_node : String
  to_node : String
  from_socket : String
  to_socket : String
  deriving Repr, DecidableEq

mutual
/-- A `graph_data` dict of the aiida_workgraph engine: name, uuid, the
task dict and the link list. -/
inductive GraphData where
  | mk (name : String) (uuid : String) (tasks : List (String × GTask))
      (links : List Link)

/-- A stored task dict: its name, metadata, and (optionally, the key may
be absent) an executor. -/
inductive GTask where
  | mk (name : String) (metadata : TaskMeta) (executor : Option GExec)

/-- An executor dict: optionally (the key may be absent) a nested
`graph_data`. -/
inductive GExec where
  | mk (graph_data : Option GraphData)
end

/-- The `name` entry of a graph dict. -/
def GraphData.name : GraphData → String
  | .mk n _ _ _ => n

/-- The `uuid` entry of a graph dict. -/
def GraphData.uuid : GraphData → String
  | .mk _ u _ _ => u

/-- The `tasks` entry of a graph dict. -/
def GraphData.tasks : GraphData → List (String × GTask)
  | .mk _ _ t _ => t

/-- The `links` entry of a graph dict. -/
def GraphData.links : GraphData → List Link
  | .mk _ _ _ l => l

/-- The `name` entry of a task dict. -/
def GTask.name : GTask → String
  | .mk n _ _ => n

/-- The `metadata` entry of a task dict. -/
def GTask.metadata : GTask → TaskMeta
  | .mk _ m _ => m

/-- The `executor` entry of a task dict (`Option.none` models the key
being absent, so subscripting raises `KeyError`). -/
def GTask.executor : GTask → Option GExec
  | .mk _ _ e => e

/-- Python `new_data["name"] = ...`: the task dict with its name entry
replaced. -/
def GTask.withName : GTask → String → GTask
  | .mk _ m e, n => .mk n m e

/-- The `graph_data` entry of an executor dict. -/
def GExec.graph_data : GExec → Option GraphData
  | .mk g => g

/-- An entry of `node.task_map_info`: the `children`, `prefix` and `links`
lists (the source dict key for `prefixes` is `"prefix"`). -/
structure MapInfo where
  children : List String
  prefixes : List String
  links : List Link
  deriving Repr

/-- A workgraph process node as read by `read_sub_workgraph`:
`wg_tasks` is `node.workgraph_data["tasks"]` with `deserialize_unsafe`
(an external AiiDA function) modelled as the identity, plus the
`task_executors` and `task_map_info` dicts and the process label. -/
structure WGNode where
  wg_tasks : List (String × GTask)
  task_executors : List (String × GExec)
  task_map_info : List (String × MapInfo)
  process_label : String

/-- The summary object attached to a graph response. -/
structure SummaryObj where
  table : List PyVal
  inputs : List (String × PyVal)
  outputs : List (String × PyVal)
  deriving Repr

/-- The response of the graph endpoints: the short-JSON content extended
with the `summary`, `parent_workgraphs` and `processes_info` entries. -/
structure WGContent (σ : Type) where
  body : σ
  summary : SummaryObj
  parent_workgraphs : List PyVal
  processes_info : List (String × PyVal)

/-- `except KeyError as e:` around a handler body: a `KeyError` is turned
into the given `HTTPException`, every other outcome passes through. -/
def catchKey {α : Type} (x : Except Exc α) (h : String → Exc) :
    Except Exc α :=
  match x with
  | .error (.keyError k) => .error (h k)
  | other => other

/-- One step of the descent loop of `read_sub_workgraph` (workgraph.py
line 181): `graph_data = graph_data["tasks"][segment]["executor"]["graph_data"]`,
raising `KeyError` at whichever key is absent. -/
def descendStep (g : GraphData) (segment : String) : Except Exc GraphData := do
  let t ← keyGet (List.lookup segment g.tasks) segment
  let ex ← keyGet t.executor "executor"
  keyGet ex.graph_data "graph_data"

/-- The `for segment in segments[1:]` descent loop of `read_sub_workgraph`
(workgraph.py lines 180-181). -/
def descend (g : GraphData) : List String → Except Exc GraphData
  | [] => .ok g
  | s :: rest => do descend (← descendStep g s) rest

/-- The prefixed copy of a map-info link built at workgraph.py lines
198-208: both node names get the prefix, both sockets are copied
unchanged. -/
def prefLink (p : String) (l : Link) : Link :=
  { from_node := p ++ "_" ++ l.from_node, to_node := p ++ "_" ++ l.to_node,
    from_socket := l.from_socket, to_socket := l.to_socket }

/-- The inner `for prefix in map_info["prefix"]` loop of the MAP task copy
(workgraph.py lines 188-191): one dict insertion per prefix, the copied
task getting the prefixed name. -/
def insertChildTasks (prefixes : List String) (childData : GTask)
    (child : String) (acc : List (String × GTask)) :
    List (String × GTask) :=
  prefixes.foldl (fun acc2 p =>
    dictSet acc2 (p ++ "_" ++ child)
      (childData.withName (p ++ "_" ++ child))) acc

/-- The outer `for child in map_info["children"]` loop of the MAP task
copy (workgraph.py lines 186-191): looking up a missing child raises
`KeyError`. -/
def mapTasksAux (wgTasks : List (String × GTask))
    (prefixes : List String) :
    List String → List (String × GTask) →
      Except Exc (List (String × GTask))
  | [], acc => .ok acc
  | child :: cs, acc => do
    let childData ← keyGet (List.lookup child wgTasks) child
    mapTasksAux wgTasks prefixes cs
      (insertChildTasks prefixes childData child acc)

/-- The `for link in map_info["links"]` loop of the MAP copy
(workgraph.py lines 193-208): a link is copied once per prefix when both
endpoints are children, else skipped. -/
def mapLinksAux (children prefixes : List String) :
    List Link → List Link → List Link
  | [], acc => acc
  | l :: ls, acc =>
    mapLinksAux children prefixes ls
      (if children.contains l.from_node && children.contains l.to_node
       then prefixes.foldl (fun acc2 p => acc2 ++ [prefLink p l]) acc
       else acc)

/-- The MAP branch of `read_sub_workgraph` (workgraph.py lines 182-208):
builds the expanded `graph_data` from the map info, copying each child
task once per prefix into the task dict and each link whose two endpoints
are children once per prefix into the link list. -/
def mapGraphData (wgTasks : List (String × GTask)) (mi : MapInfo)
    (lastSeg : String) : Except Exc GraphData := do
  let tasks ← mapTasksAux wgTasks mi.prefixes mi.children []
  let links := mapLinksAux mi.children mi.prefixes mi.links []
  pure (GraphData.mk lastSeg "" tasks links)

/-- Handler of `GET /api/workgraph/{id}/{path}` (workgraph.py lines
162-229).  `load_node` and `workgraph_to_short_json` are external and
passed in as `loadNode` and `shortJson` (`shortJson` returning
`Option.none` models the `content is None` early return).  A `KeyError`
anywhere in the body becomes HTTP 404; a missing executor or map info
(`dict.get` returning `None`) raises `TypeError` instead, which is not
caught. -/
def read_sub_workgraph {σ : Type} (shortJson : GraphData → Option σ)
    (loadNode : Except Exc WGNode) (id : Int) (path : String) :
    Except Exc (Option (WGContent σ)) :=
  catchKey (do
    let node ← loadNode
    match pySplit path (Char.ofNat 47) with
    | [] => Except.error (.nameError "graph_data")
    | s0 :: rest => do
      let ndata ← keyGet (List.lookup s0 node.wg_tasks) s0
      let graph_data ←
        if pyUpper ndata.metadata.node_type = "WORKGRAPH" then
          match List.lookup s0 node.task_executors with
          | Option.none =>
            Except.error (.typeError "NoneType object is not subscriptable")
          | some ex => do
            let g0 ← keyGet ex.graph_data "graph_data"
            descend g0 rest
        else if pyUpper ndata.metadata.node_type = "MAP" then
          match List.lookup s0 node.task_map_info with
          | Option.none =>
            Except.error (.typeError "NoneType object is not subscriptable")
          | some mi =>
            mapGraphData node.wg_tasks mi
              ((s0 :: rest).getLast (List.cons_ne_nil s0 rest))
        else Except.error (.nameError "graph_data")
      match shortJson graph_data with
      | Option.none => pure Option.none
      | some content =>
        pure (some { body := content, summary := ⟨[], [], []⟩,
                     parent_workgraphs :=
                       PyVal.list [.str node.process_label, .int id] ::
                         (s0 :: rest).map PyVal.str,
                     processes_info := [] }))
    (fun k => .httpExc 404 ("Workgraph " ++ toString id ++ "/" ++ path ++
      " not found, " ++ sQuote ++ k ++ sQuote))

/-- A workgraph process node as read by `read_workgraph`: only its
`workgraph_data_short` property matters to the handler (the body type is
abstract). -/
structure WGNodeFull (σ : Type) where
  workgraph_data_short : Option σ

/-- Handler of `GET /api/workgraph/{id}` (workgraph.py lines 232-263).
`load_node`, `get_node_summary`, `get_node_inputs`, `get_node_outputs`
(repository `utils.py`, not among the sources) and the external
`get_parent_workgraphs` are passed in as parameters.  A `None`
`workgraph_data_short` returns no content; a `KeyError` becomes HTTP 404. -/
def read_workgraph {σ : Type} (loadNode : Except Exc (WGNodeFull σ))
    (getNodeSummary : WGNodeFull σ → Except Exc (List PyVal))
    (getNodeInputs : Int → Except Exc (List (String × PyVal)))
    (getNodeOutputs : Int → Except Exc (List (String × PyVal)))
    (getParentWorkgraphs : Int → Except Exc (List PyVal))
    (id : Int) : Except Exc (Option (WGContent σ)) :=
  catchKey (do
    let node ← loadNode
    match node.workgraph_data_short with
    | Option.none => pure Option.none
    | some content => do
      let tbl ← getNodeSummary node
      let inp ← getNodeInputs id
      let outp ← getNodeOutputs id
      let parents ← getParentWorkgraphs id
      pure (some { body := content, summary := ⟨tbl, inp, outp⟩,
                   parent_workgraphs := parents.reverse,
                   processes_info := [] }))
    (fun k => .httpExc 404 ("Workgraph " ++ toString id ++ " not found, " ++
      sQuote ++ k ++ sQuote))

/-- The message-only response body of several endpoints. -/
structure MsgResp where
  message : String
  deriving Repr, DecidableEq

/-- Handler of `POST /api/workgraph/pause/{id}` (workgraph.py lines
295-307): load the node, call `pause_processes([node])`, and turn any
exception into HTTP 500 with `str(e)` as detail. -/
def pause_workgraph {N : Type} (loadNode : Except Exc N)
    (pauseProcesses : List N → Except Exc Unit) (id : Int) :
    Except Exc MsgResp :=
  match (do let n ← loadNode; pauseProcesses [n]) with
  | .ok _ => .ok ⟨"Send message to pause workgraph " ++ toString id⟩
  | .error e => .error (.httpExc 500 (excStr e))

/-- Handler of `POST /api/workgraph/play/{id}` (workgraph.py lines
311-323). -/
def play_workgraph {N : Type} (loadNode : Except Exc N)
    (playProcesses : List N → Except Exc Unit) (id : Int) :
    Except Exc MsgResp :=
  match (do let n ← loadNode; playProcesses [n]) with
  | .ok _ => .ok ⟨"Send message to play workgraph " ++ toString id⟩
  | .error e => .error (.httpExc 500 (excStr e))

/-- The response body of the delete endpoints. -/
structure DeleteResp where
  deleted : Bool
  message : String
  deleted_nodes : List Int
  deriving Repr, DecidableEq

/-- Handler of `DELETE /api/workgraph/delete/{id}` (workgraph.py lines
327-353).  `delete_nodes([id], dry_run=dry_run)` is external and its
outcome is passed in as `deleteNodes` (pair of returned pks and the
was-deleted boolean, or a raised exception). -/
def delete_workgraph (deleteNodes : Except Exc (List Int × Bool))
    (id : Int) (dry_run : Bool) : Except Exc DeleteResp :=
  match deleteNodes with
  | .ok (deleted_nodes, was_deleted) =>
    if was_deleted then
      .ok { deleted := true,
            message := "Deleted workgraph " ++ toString id,
            deleted_nodes := deleted_nodes }
    else
      .ok { deleted := false,
            message :=
              if dry_run then
                "Did not delete workgraph " ++ toString id ++ " [dry-run]"
              else "Did not delete workgraph " ++ toString id,
            deleted_nodes := deleted_nodes }
  | .error e => .error (.httpExc 500 (excStr e))

/-- Handler of `DELETE /api/datanode/delete/{id}` (datanode.py lines
135-161): identical to `delete_workgraph` up to the wording. -/
def delete_data_node (deleteNodes : Except Exc (List Int × Bool))
    (id : Int) (dry_run : Bool) : Except Exc DeleteResp :=
  match deleteNodes with
  | .ok (deleted_nodes, was_deleted) =>
    if was_deleted then
      .ok { deleted := true,
            message := "Deleted data node " ++ toString id,
            deleted_nodes := deleted_nodes }
    else
      .ok { deleted := false,
            message :=
              if dry_run then
                "Did not delete data node " ++ toString id ++ " [dry-run]"
              else "Did not delete data node " ++ toString id,
            deleted_nodes := deleted_nodes }
  | .error e => .error (.httpExc 500 (excStr e))

/-- The `manage_task_action` helper (workgraph.py lines 357-378).  The
three aiida_workgraph control functions are external and passed in; each
returns a pair whose second component is the message.  The `try` block
surrounds the whole dispatch, so the internally raised
`HTTPException(400, "Unsupported action")` is itself caught by
`except Exception` and re-raised as a 500 whose detail is its `str`. -/
def manage_task_action
    (pause_tasks play_tasks kill_tasks :
      Int → List String → Except Exc (Bool × String))
    (action : String) (id : Int) (tasks : List String) :
    Except Exc MsgResp :=
  let body : Except Exc MsgResp := do
    if action = "pause" then
      let r ← pause_tasks id tasks
      pure ⟨r.2⟩
    else if action = "play" then
      let r ← play_tasks id tasks
      pure ⟨r.2⟩
    else if action = "kill" then
      let r ← kill_tasks id tasks
      pure ⟨r.2⟩
    else Except.error (.httpExc 400 "Unsupported action")
  match body with
  | .ok v => .ok v
  | .error e => .error (.httpExc 500 (excStr e))

/-- The response produced for one request after exception handling. -/
inductive FinalResp (α : Type) where
  | success (a : α)
  | file (path : String) (mediaType : String)
  | defaultHandled (status : Nat) (detail : String)
  | serverError (msg : String)
  deriving Repr

/-- FastAPI's default `http_exception_handler`: the standard error
response for the exception's status code and detail. -/
def http_exception_handler {α : Type} (status : Nat) (detail : String) :
    FinalResp α :=
  .defaultHandled status detail

/-- The application-level `StarletteHTTPException` handler of api.py lines
87-92: a 404 is answered with the React build's `index.html` as
`text/html`; every other status code goes to the framework's default
handler. -/
def _spa_server {α : Type} (build_dir : String) (status : Nat)
    (detail : String) : FinalResp α :=
  if status = 404 then .file (build_dir ++ "/index.html") "text/html"
  else http_exception_handler status detail

/-- Dispatch of one endpoint outcome through the application's exception
handling: `HTTPException`s (FastAPI's subclass of starlette's) reach the
registered `_spa_server` handler, any other uncaught exception becomes the
framework's plain 500 response. -/
def appRespond {α : Type} (build_dir : String) :
    Except Exc α → FinalResp α
  | .ok a => .success a
  | .error (.httpExc s d) => _spa_server build_dir s d
  | .error e => .serverError (excStr e)

/-! Helper lemmas. -/

theorem exc_bind_ok {α β : Type} (a : α) (f : α → Except Exc β) :
    (Except.ok a >>= f) = f a := rfl

theorem exc_bind_error {α β : Type} (e : Exc) (f : α → Except Exc β) :
    ((Except.error e : Except Exc α) >>= f) = Except.error e := rfl

theorem exc_pure {α : Type} (a : α) :
    (pure a : Except Exc α) = Except.ok a := rfl

theorem length_insertLe {α : Type} (le : α → α → Bool) (a : α) (l : List α) :
    (insertLe le a l).length = l.length + 1 := by
  induction l with
  | nil => rfl
  | cons b l ih =>
    simp only [insertLe]
    split <;> simp [ih]

theorem length_sortByLe {α : Type} (le : α → α → Bool) (l : List α) :
    (sortByLe le l).length = l.length := by
  induction l with
  | nil => rfl
  | cons a l ih => simp [sortByLe, length_insertLe, ih]

theorem digitChar_ne_rbracket (n : Nat) : Nat.digitChar n ≠ ']' := by
  match n with
  | 0 | 1 | 2 | 3 | 4 | 5 | 6 | 7 | 8 | 9 | 10 | 11 | 12 | 13 | 14 | 15 =>
    decide
  | m + 16 =>
    unfold Nat.digitChar
    iterate 16 rw [if_neg (by omega)]
    decide

theorem mem_toDigitsCore (b : Nat) (f : Nat) :
    ∀ (n : Nat) (acc : List Char) (c : Char),
      c ∈ Nat.toDigitsCore b f n acc →
        (∃ m, c = Nat.digitChar m) ∨ c ∈ acc := by
  induction f with
  | zero =>
    intro n acc c h
    simp only [Nat.toDigitsCore] at h
    exact Or.inr h
  | succ f ih =>
    intro n acc c h
    simp only [Nat.toDigitsCore] at h
    split at h
    · rcases List.mem_cons.mp h with h | h
      · exact Or.inl ⟨n % b, h⟩
      · exact Or.inr h
    · rcases ih _ _ _ h with h | h
      · exact Or.inl h
      · rcases List.mem_cons.mp h with h | h
        · exact Or.inl ⟨n % b, h⟩
        · exact Or.inr h

theorem rbracket_not_mem_natRepr (n : Nat) : ']' ∉ (Nat.repr n).data := by
  intro h
  have h' : ']' ∈ Nat.toDigits 10 n := h
  rcases mem_toDigitsCore 10 (n + 1) n [] _ h' with ⟨m, hm⟩ | h''
  · exact digitChar_ne_rbracket m hm.symm
  · exact List.not_mem_nil _ h''

theorem rbracket_not_mem_intRepr (n : Int) : ']' ∉ (toString n).data := by
  cases n with
  | ofNat m => exact rbracket_not_mem_natRepr m
  | negSucc m =>
    intro h
    have h' : ']' ∈ ("-" ++ Nat.repr (m + 1)).data := h
    rw [String.data_append] at h'
    rcases List.mem_append.mp h' with h'' | h''
    · exact absurd h'' (by decide)
    · exact rbracket_not_mem_natRepr (m + 1) h''

theorem not_dryRun_suffix (pre : String) (hpre : ']' ∉ pre.data) (n : Int) :
    ¬ ((" [dry-run]").data <:+ (pre ++ toString n).data) := by
  intro h
  obtain ⟨t, ht⟩ := h
  have hmem : ']' ∈ (pre ++ toString n).data := by
    rw [← ht]
    exact List.mem_append.mpr (Or.inr (by decide))
  rw [String.data_append] at hmem
  rcases List.mem_append.mp hmem with h1 | h1
  · exact hpre h1
  · exact rbracket_not_mem_intRepr n h1

/-- C5: for both delete endpoints the response field `deleted` equals the
boolean returned by `delete_nodes`, `deleted_nodes` is the list of pks it
returned, when deletion did not happen the message ends with " [dry-run]"
exactly when `dry_run` is true, and any exception from `delete_nodes`
becomes HTTP 500 whose detail is the exception's string. -/
theorem c5_delete_contract (id : Int) (dry_run : Bool) (dn : List Int)
    (was : Bool) (e : Exc) (respW respD : DeleteResp)
    (hW : delete_workgraph (.ok (dn, was)) id dry_run = .ok respW)
    (hD : delete_data_node (.ok (dn, was)) id dry_run = .ok respD) :
    (respW.deleted = was ∧ respW.deleted_nodes = dn ∧
      (was = false →
        (((" [dry-run]").data <:+ respW.message.data) ↔ dry_run = true)))
    ∧ (respD.deleted = was ∧ respD.deleted_nodes = dn ∧
      (was = false →
        (((" [dry-run]").data <:+ respD.message.data) ↔ dry_run = true)))
    ∧ delete_workgraph (.error e) id dry_run = .error (.httpExc 500 (excStr e))
    ∧ delete_data_node (.error e) id dry_run =
        .error (.httpExc 500 (excStr e)) := by
  refine ⟨?_, ?_, rfl, rfl⟩
  · cases was with
    | true =>
      cases hW
      exact ⟨rfl, rfl, fun h => Bool.noConfusion h⟩
    | false =>
      cases dry_run with
      | true =>
        cases hW
        refine ⟨rfl, rfl, fun _ => ⟨fun _ => rfl, fun _ => ?_⟩⟩
        show (" [dry-run]").data <:+
          (("Did not delete workgraph " ++ toString id) ++ " [dry-run]").data
        rw [String.data_append]
        exact List.suffix_append _ _
      | false =>
        cases hW
        refine ⟨rfl, rfl, fun _ => ⟨fun hsfx => ?_, fun h => Bool.noConfusion h⟩⟩
        exact absurd hsfx
          (not_dryRun_suffix "Did not delete workgraph " (by decide) id)
  · cases was with
    | true =>
      cases hD
      exact ⟨rfl, rfl, fun h => Bool.noConfusion h⟩
    | false =>
      cases dry_run with
      | true =>
        cases hD
        refine ⟨rfl, rfl, fun _ => ⟨fun _ => rfl, fun _ => ?_⟩⟩
        show (" [dry-run]").data <:+
          (("Did not delete data node " ++ toString id) ++ " [dry-run]").data
        rw [String.data_append]
        exact List.suffix_append _ _
      | false =>
        cases hD
        refine ⟨rfl, rfl, fun _ => ⟨fun hsfx => ?_, fun h => Bool.noConfusion h⟩⟩
        exact absurd hsfx
          (not_dryRun_suffix "Did not delete data node " (by decide) id)

/-- The concrete workgraph delete response used by the C5 witness. -/
def c5respW : DeleteResp :=
  { deleted := false, message := "Did not delete workgraph 7 [dry-run]",
    deleted_nodes := [7, 8] }

/-- The concrete datanode delete response used by the C5 witness. -/
def c5respD : DeleteResp :=
  { deleted := false, message := "Did not delete data node 7 [dry-run]",
    deleted_nodes := [7, 8] }

/-- C5 witness at id 7, dry_run true, a dry-run refusal and a raised
`ValueError`. -/
theorem c5_delete_contract_witness :
    (c5respW.deleted = false ∧ c5respW.deleted_nodes = [7, 8] ∧
      (false = false →
        (((" [dry-run]").data <:+ c5respW.message.data) ↔ true = true)))
    ∧ (c5respD.deleted = false ∧ c5respD.deleted_nodes = [7, 8] ∧
      (false = false →
        (((" [dry-run]").data <:+ c5respD.message.data) ↔ true = true)))
    ∧ delete_workgraph (.error (.valueError "boom")) 7 true =
        .error (.httpExc 500 (excStr (.valueError "boom")))
    ∧ delete_data_node (.error (.valueError "boom")) 7 true =
        .error (.httpExc 500 (excStr (.valueError "boom"))) :=
  c5_delete_contract 7 true [7, 8] false (.valueError "boom")
    c5respW c5respD rfl rfl

/-- C6: the pause (resp. play) endpoint loads the node, calls the control
function on the singleton list containing it, returns exactly the
documented message on success, and turns any exception from loading or
control into HTTP 500 with the exception's string as detail — never 404. -/
theorem c6_pause_play_contract {N : Type} (loadNode : Except Exc N)
    (pauseP playP : List N → Except Exc Unit) (id : Int) :
    (∀ n, loadNode = .ok n → pauseP [n] = .ok () →
      pause_workgraph loadNode pauseP id =
        .ok ⟨"Send message to pause workgraph " ++ toString id⟩)
    ∧ (∀ n, loadNode = .ok n → playP [n] = .ok () →
      play_workgraph loadNode playP id =
        .ok ⟨"Send message to play workgraph " ++ toString id⟩)
    ∧ (∀ e, loadNode = .error e →
      pause_workgraph loadNode pauseP id = .error (.httpExc 500 (excStr e)) ∧
      play_workgraph loadNode playP id = .error (.httpExc 500 (excStr e)))
    ∧ (∀ n e, loadNode = .ok n → pauseP [n] = .error e →
      pause_workgraph loadNode pauseP id = .error (.httpExc 500 (excStr e)))
    ∧ (∀ n e, loadNode = .ok n → playP [n] = .error e →
      play_workgraph loadNode playP id = .error (.httpExc 500 (excStr e)))
    ∧ (∀ st d, pause_workgraph loadNode pauseP id = .error (.httpExc st d) →
      st = 500)
    ∧ (∀ st d, play_workgraph loadNode playP id = .error (.httpExc st d) →
      st = 500) := by
  refine ⟨?_, ?_, ?_, ?_, ?_, ?_, ?_⟩
  · intro n h1 h2; simp [pause_workgraph, h1, h2, exc_bind_ok]
  · intro n h1 h2; simp [play_workgraph, h1, h2, exc_bind_ok]
  · intro e h; rw [pause_workgraph, play_workgraph, h]; exact ⟨rfl, rfl⟩
  · intro n e h1 h2; simp [pause_workgraph, h1, h2, exc_bind_ok]
  · intro n e h1 h2; simp [play_workgraph, h1, h2, exc_bind_ok]
  · intro st d h
    cases hE : loadNode with
    | error e =>
      rw [pause_workgraph, hE] at h
      exact (Exc.httpExc.inj (Except.error.inj h).symm).1
    | ok n =>
      rw [pause_workgraph, hE] at h
      rw [show ((Except.ok n : Except Exc N) >>= fun n => pauseP [n]) =
        pauseP [n] from rfl] at h
      cases hP : pauseP [n] with
      | ok u => rw [hP] at h; exact Except.noConfusion h
      | error e =>
        rw [hP] at h
        exact (Exc.httpExc.inj (Except.error.inj h).symm).1
  · intro st d h
    cases hE : loadNode with
    | error e =>
      rw [play_workgraph, hE] at h
      exact (Exc.httpExc.inj (Except.error.inj h).symm).1
    | ok n =>
      rw [play_workgraph, hE] at h
      rw [show ((Except.ok n : Except Exc N) >>= fun n => playP [n]) =
        playP [n] from rfl] at h
      cases hP : playP [n] with
      | ok u => rw [hP] at h; exact Except.noConfusion h
      | error e =>
        rw [hP] at h
        exact (Exc.httpExc.inj (Except.error.inj h).symm).1

/-- C6 witness: pause and play succeed on a concrete node with the exact
documented messages. -/
theorem c6_pause_play_witness :
    pause_workgraph (Except.ok (0 : Nat)) (fun _ => Except.ok ()) 3 =
      .ok ⟨"Send message to pause workgraph 3"⟩
    ∧ play_workgraph (Except.ok (0 : Nat)) (fun _ => Except.ok ()) 3 =
      .ok ⟨"Send message to play workgraph 3"⟩ :=
  ⟨(c6_pause_play_contract (Except.ok 0) (fun _ => Except.ok ())
      (fun _ => Except.ok ()) 3).1 0 rfl rfl,
   (c6_pause_play_contract (Except.ok 0) (fun _ => Except.ok ())
      (fun _ => Except.ok ()) 3).2.1 0 rfl rfl⟩

/-- C9: an action outside pause/play/kill makes `manage_task_action`
answer HTTP 500 whose detail is the string of the internally raised 400
`HTTPException` (`"400: Unsupported action"`); for the three supported
actions the corresponding control function is called and its message is
returned as the response. -/
theorem c9_manage_task_action_contract
    (pauseT playT killT : Int → List String → Except Exc (Bool × String))
    (action : String) (id : Int) (tasks : List String) :
    (excStr (.httpExc 400 "Unsupported action") = "400: Unsupported action")
    ∧ (action ≠ "pause" → action ≠ "play" → action ≠ "kill" →
      manage_task_action pauseT playT killT action id tasks =
        .error (.httpExc 500 (excStr (.httpExc 400 "Unsupported action"))))
    ∧ (∀ r, pauseT id tasks = .ok r →
      manage_task_action pauseT playT killT "pause" id tasks = .ok ⟨r.2⟩)
    ∧ (∀ r, playT id tasks = .ok r →
      manage_task_action pauseT playT killT "play" id tasks = .ok ⟨r.2⟩)
    ∧ (∀ r, killT id tasks = .ok r →
      manage_task_action pauseT playT killT "kill" id tasks = .ok ⟨r.2⟩) := by
  refine ⟨rfl, ?_, ?_, ?_, ?_⟩
  · intro h1 h2 h3
    simp only [manage_task_action, if_neg h1, if_neg h2, if_neg h3]
  · intro r h
    simp only [manage_task_action, if_pos rfl, if_true, h, exc_bind_ok,
      exc_pure]
  · intro r h
    simp only [manage_task_action,
      if_neg (by decide : ¬("play" : String) = "pause"), if_pos rfl, if_true,
      h, exc_bind_ok, exc_pure]
  · intro r h
    simp only [manage_task_action,
      if_neg (by decide : ¬("kill" : String) = "pause"),
      if_neg (by decide : ¬("kill" : String) = "play"), if_pos rfl, if_true,
      h, exc_bind_ok, exc_pure]

/-- C9 witness: an unsupported action and a successful pause on concrete
inputs. -/
theorem c9_manage_task_action_witness :
    manage_task_action (fun _ _ => .ok (true, "paused"))
      (fun _ _ => .ok (true, "played")) (fun _ _ => .ok (true, "killed"))
      "frobnicate" 1 ["t1"] =
      .error (.httpExc 500 (excStr (.httpExc 400 "Unsupported action")))
    ∧ manage_task_action (fun _ _ => .ok (true, "paused"))
      (fun _ _ => .ok (true, "played")) (fun _ _ => .ok (true, "killed"))
      "pause" 1 ["t1"] = .ok ⟨"paused"⟩ :=
  ⟨(c9_manage_task_action_contract (fun _ _ => .ok (true, "paused"))
      (fun _ _ => .ok (true, "played")) (fun _ _ => .ok (true, "killed"))
      "frobnicate" 1 ["t1"]).2.1 (by decide) (by decide) (by decide),
   (c9_manage_task_action_contract (fun _ _ => .ok (true, "paused"))
      (fun _ _ => .ok (true, "played")) (fun _ _ => .ok (true, "killed"))
      "pause" 1 ["t1"]).2.2.1 (true, "paused") rfl⟩

/-- C4: the registered `StarletteHTTPException` handler answers every
exception with status 404 — including the 404 `HTTPException`s raised by
the API endpoints, here exhibited through `read_workgraph` — with the
React build's `index.html` as `text/html`, and passes every other status
to the framework's default HTTP exception handler. -/
theorem c4_spa_404_contract (build_dir : String) (status : Nat)
    (detail : String) :
    (status = 404 →
      (_spa_server build_dir status detail : FinalResp Unit) =
        .file (build_dir ++ "/index.html") "text/html")
    ∧ (status ≠ 404 →
      (_spa_server build_dir status detail : FinalResp Unit) =
        http_exception_handler status detail)
    ∧ (∀ (r : Except Exc Unit) (d : String), r = .error (.httpExc 404 d) →
      appRespond build_dir r = .file (build_dir ++ "/index.html") "text/html")
    ∧ (∀ (loadNode : Except Exc (WGNodeFull Nat))
        (gS : WGNodeFull Nat → Except Exc (List PyVal))
        (gI gO : Int → Except Exc (List (String × PyVal)))
        (gP : Int → Except Exc (List PyVal)) (id : Int) (k : String),
      loadNode = .error (.keyError k) →
      appRespond build_dir (read_workgraph loadNode gS gI gO gP id) =
        .file (build_dir ++ "/index.html") "text/html") := by
  refine ⟨?_, ?_, ?_, ?_⟩
  · intro h; simp [_spa_server, h]
  · intro h; simp [_spa_server, http_exception_handler, h]
  · intro r d h; rw [h]; rfl
  · intro loadNode gS gI gO gP id k h; rw [h]; rfl

/-- C4 witness: a 404 raised by a concrete endpoint call and a non-404
exception on concrete inputs. -/
theorem c4_spa_404_witness :
    ((_spa_server "build" 404 "nope" : FinalResp Unit) =
      .file ("build" ++ "/index.html") "text/html")
    ∧ appRespond "build" (Except.error (Exc.httpExc 404 "gone") :
        Except Exc Unit) = .file ("build" ++ "/index.html") "text/html" :=
  ⟨(c4_spa_404_contract "build" 404 "nope").1 rfl,
   (c4_spa_404_contract "build" 404 "nope").2.2.1
     (Except.error (Exc.httpExc 404 "gone")) "gone" rfl⟩

/-- C7: when `workgraph_data_short` is present, `GET /api/workgraph/{id}`
returns it extended with the summary object, with `parent_workgraphs`
equal to the reversal of `get_parent_workgraphs(id)` and an empty
`processes_info`; when it is `None` the handler returns no content; a
`KeyError` yields HTTP 404. -/
theorem c7_read_workgraph_contract {σ : Type}
    (loadNode : Except Exc (WGNodeFull σ))
    (gS : WGNodeFull σ → Except Exc (List PyVal))
    (gI gO : Int → Except Exc (List (String × PyVal)))
    (gP : Int → Except Exc (List PyVal)) (id : Int) :
    (∀ node content tbl inp outp parents,
      loadNode = .ok node → node.workgraph_data_short = some content →
      gS node = .ok tbl → gI id = .ok inp → gO id = .ok outp →
      gP id = .ok parents →
      read_workgraph loadNode gS gI gO gP id =
        .ok (some { body := content, summary := ⟨tbl, inp, outp⟩,
                    parent_workgraphs := parents.reverse,
                    processes_info := [] }))
    ∧ (∀ node, loadNode = .ok node →
      node.workgraph_data_short = Option.none →
      read_workgraph loadNode gS gI gO gP id = .ok Option.none)
    ∧ (∀ k, loadNode = .error (.keyError k) →
      read_workgraph loadNode gS gI gO gP id =
        .error (.httpExc 404 ("Workgraph " ++ toString id ++ " not found, "
          ++ sQuote ++ k ++ sQuote))) := by
  refine ⟨?_, ?_, ?_⟩
  · intro node content tbl inp outp parents h1 h2 h3 h4 h5 h6
    simp [read_workgraph, catchKey, h1, h2, h3, h4, h5, h6, exc_bind_ok,
      exc_pure]
  · intro node h1 h2
    simp [read_workgraph, catchKey, h1, h2, exc_bind_ok, exc_pure]
  · intro k h
    rw [read_workgraph, h]
    rfl

/-- C7 witness: a concrete node with short data, and the 404 path. -/
theorem c7_read_workgraph_witness :
    read_workgraph (Except.ok ({ workgraph_data_short := some 42 } :
        WGNodeFull Nat))
      (fun _ => Except.ok [PyVal.str "row"])
      (fun _ => Except.ok [("x", PyVal.int 1)])
      (fun _ => Except.ok [("y", PyVal.int 2)])
      (fun _ => Except.ok [PyVal.str "p1", PyVal.str "p2"]) 9 =
      .ok (some { body := 42,
                  summary := ⟨[PyVal.str "row"], [("x", PyVal.int 1)],
                    [("y", PyVal.int 2)]⟩,
                  parent_workgraphs := [PyVal.str "p2", PyVal.str "p1"],
                  processes_info := [] }) :=
  ((c7_read_workgraph_contract
      (Except.ok { workgraph_data_short := some 42 })
      (fun _ => Except.ok [PyVal.str "row"])
      (fun _ => Except.ok [("x", PyVal.int 1)])
      (fun _ => Except.ok [("y", PyVal.int 2)])
      (fun _ => Except.ok [PyVal.str "p1", PyVal.str "p2"]) 9).1
    { workgraph_data_short := some 42 } 42 [PyVal.str "row"]
    [("x", PyVal.int 1)] [("y", PyVal.int 2)]
    [PyVal.str "p1", PyVal.str "p2"] rfl rfl rfl rfl rfl rfl).trans rfl

theorem validate_ok_props (fs : List String) (skip limit : Option Int)
    (sf so : Option String) (p : ListQueryParams)
    (h : validateListParams fs skip limit sf so = .ok p) :
    0 ≤ p.skip ∧ 0 < p.limit ∧ p.limit ≤ 500 ∧ p.sortField ∈ fs ∧
      (p.sortOrder = "asc" ∨ p.sortOrder = "desc") := by
  by_cases h1 : (skip.getD 0) < 0
  · simp [validateListParams, h1] at h
  by_cases h2 : (limit.getD 15) ≤ 0
  · simp [validateListParams, h1, h2] at h
  by_cases h3 : (500 : Int) < (limit.getD 15)
  · simp [validateListParams, h1, h2, h3] at h
  by_cases h4 : (sf.getD "pk") ∉ fs
  · simp [validateListParams, h1, h2, h3, h4] at h
  by_cases h5 : (so.getD "desc") ∉ ["asc", "desc"]
  · simp [validateListParams, h1, h2, h3, h4, h5] at h
  · simp only [validateListParams, if_neg h1, if_neg h2, if_neg h3,
      if_neg h4, if_neg h5] at h
    cases h
    refine ⟨?_, ?_, ?_, not_not.mp h4, ?_⟩
    · show 0 ≤ skip.getD 0
      omega
    · show 0 < limit.getD 15
      omega
    · show limit.getD 15 ≤ 500
      omega
    · have hm := not_not.mp h5
      simpa using hm

/-- C10: both list endpoints reject skip < 0, limit outside (0, 500], a
sortField outside the declared pattern or a sortOrder other than asc/desc
before the handler body runs; a validated request always has in-range skip
and limit, a sortField that is a key of the endpoint's `col_map`, and a
sortOrder in {asc, desc}; omitted parameters take the declared defaults. -/
theorem c10_list_param_validation :
    (validateListParams datanode_sort_fields Option.none Option.none
        Option.none Option.none = .ok ⟨0, 15, "pk", "desc"⟩
      ∧ validateListParams workgraph_sort_fields Option.none Option.none
        Option.none Option.none = .ok ⟨0, 15, "pk", "desc"⟩)
    ∧ (∀ fs skip limit sf so p,
        validateListParams fs skip limit sf so = .ok p →
          0 ≤ p.skip ∧ 0 < p.limit ∧ p.limit ≤ 500 ∧ p.sortField ∈ fs ∧
            (p.sortOrder = "asc" ∨ p.sortOrder = "desc"))
    ∧ (∀ skip limit sf so p,
        validateListParams datanode_sort_fields skip limit sf so = .ok p →
          (List.lookup p.sortField datanode_col_map).isSome = true)
    ∧ (∀ skip limit sf so p,
        validateListParams workgraph_sort_fields skip limit sf so = .ok p →
          (List.lookup p.sortField workgraph_col_map).isSome = true)
    ∧ (∀ skip limit sf so,
        ((skip.getD 0) < 0 ∨ (limit.getD 15) ≤ 0 ∨ 500 < (limit.getD 15) ∨
          (sf.getD "pk") ∉ datanode_sort_fields ∨
          (so.getD "desc") ∉ ["asc", "desc"]) →
        ∀ db timeAgo jsonLoads fm, ∃ d,
          datanode_endpoint db timeAgo jsonLoads skip limit sf so fm =
            .error (.httpExc 422 d))
    ∧ (∀ skip limit sf so,
        ((skip.getD 0) < 0 ∨ (limit.getD 15) ≤ 0 ∨ 500 < (limit.getD 15) ∨
          (sf.getD "pk") ∉ workgraph_sort_fields ∨
          (so.getD "desc") ∉ ["asc", "desc"]) →
        ∀ db timeAgo translateWG fm, ∃ d,
          workgraph_endpoint db timeAgo translateWG skip limit sf so fm =
            .error (.httpExc 422 d)) := by
  refine ⟨⟨rfl, rfl⟩, validate_ok_props, ?_, ?_, ?_, ?_⟩
  · intro skip limit sf so p h
    have hmem := (validate_ok_props _ _ _ _ _ _ h).2.2.2.1
    simp only [datanode_sort_fields, List.mem_cons, List.not_mem_nil,
      or_false] at hmem
    rcases hmem with h' | h' | h' | h' | h' <;> rw [h'] <;> rfl
  · intro skip limit sf so p h
    have hmem := (validate_ok_props _ _ _ _ _ _ h).2.2.2.1
    simp only [workgraph_sort_fields, List.mem_cons, List.not_mem_nil,
      or_false] at hmem
    rcases hmem with h' | h' | h' | h' | h' | h' <;> rw [h'] <;> rfl
  · intro skip limit sf so hviol db timeAgo jsonLoads fm
    by_cases h1 : (skip.getD 0) < 0
    · exact ⟨"skip: Input should be greater than or equal to 0",
        by simp [datanode_endpoint, validateListParams, h1, exc_bind_error]⟩
    by_cases h2 : (limit.getD 15) ≤ 0
    · exact ⟨"limit: Input should be greater than 0",
        by simp [datanode_endpoint, validateListParams, h1, h2,
          exc_bind_error]⟩
    by_cases h3 : (500 : Int) < (limit.getD 15)
    · exact ⟨"limit: Input should be less than or equal to 500",
        by simp [datanode_endpoint, validateListParams, h1, h2, h3,
          exc_bind_error]⟩
    by_cases h4 : (sf.getD "pk") ∉ datanode_sort_fields
    · exact ⟨"sortField: String should match pattern",
        by simp [datanode_endpoint, validateListParams, h1, h2, h3, h4,
          exc_bind_error]⟩
    by_cases h5 : (so.getD "desc") ∉ ["asc", "desc"]
    · exact ⟨"sortOrder: String should match pattern",
        by simp [datanode_endpoint, validateListParams, h1, h2, h3, h4, h5,
          exc_bind_error]⟩
    · rcases hviol with h | h | h | h | h
      · exact absurd h h1
      · exact absurd h h2
      · exact absurd h h3
      · exact absurd h h4
      · exact absurd h h5
  · intro skip limit sf so hviol db timeAgo translateWG fm
    by_cases h1 : (skip.getD 0) < 0
    · exact ⟨"skip: Input should be greater than or equal to 0",
        by simp [workgraph_endpoint, validateListParams, h1, exc_bind_error]⟩
    by_cases h2 : (limit.getD 15) ≤ 0
    · exact ⟨"limit: Input should be greater than 0",
        by simp [workgraph_endpoint, validateListParams, h1, h2,
          exc_bind_error]⟩
    by_cases h3 : (500 : Int) < (limit.getD 15)
    · exact ⟨"limit: Input should be less than or equal to 500",
        by simp [workgraph_endpoint, validateListParams, h1, h2, h3,
          exc_bind_error]⟩
    by_cases h4 : (sf.getD "pk") ∉ workgraph_sort_fields
    · exact ⟨"sortField: String should match pattern",
        by simp [workgraph_endpoint, validateListParams, h1, h2, h3, h4,
          exc_bind_error]⟩
    by_cases h5 : (so.getD "desc") ∉ ["asc", "desc"]
    · exact ⟨"sortOrder: String should match pattern",
        by simp [workgraph_endpoint, validateListParams, h1, h2, h3, h4, h5,
          exc_bind_error]⟩
    · rcases hviol with h | h | h | h | h
      · exact absurd h h1
      · exact absurd h h2
      · exact absurd h h3
      · exact absurd h h4
      · exact absurd h h5

/-- C10 witness: the default parameters validate and satisfy every
guarantee of the validation layer. -/
theorem c10_list_param_validation_witness :
    0 ≤ ((⟨0, 15, "pk", "desc"⟩ : ListQueryParams)).skip ∧
    0 < ((⟨0, 15, "pk", "desc"⟩ : ListQueryParams)).limit ∧
    ((⟨0, 15, "pk", "desc"⟩ : ListQueryParams)).limit ≤ 500 ∧
    ((⟨0, 15, "pk", "desc"⟩ : ListQueryParams)).sortField ∈
      datanode_sort_fields ∧
    (((⟨0, 15, "pk", "desc"⟩ : ListQueryParams)).sortOrder = "asc" ∨
      ((⟨0, 15, "pk", "desc"⟩ : ListQueryParams)).sortOrder = "desc") :=
  c10_list_param_validation.2.1 datanode_sort_fields Option.none Option.none
    Option.none Option.none ⟨0, 15, "pk", "desc"⟩ rfl

/-- C1: both list handlers apply the translated filters, order by the
column mapped from sortField in direction sortOrder, compute `total` as
the count of all matching rows — independent of skip and limit — and
return in `data` at most `limit` rows starting at offset `skip`, each
projected to the documented columns. -/
theorem c1_list_query_pipeline (db : List DataRow) (wdb : List WorkRow)
    (timeAgo : Int → String) (jsonLoads : String → Option PyVal)
    (translateWG : String → Except Exc (WorkRow → Bool))
    (skip limit : Int) (sfD sfW sortOrder : String)
    (fmD fmW : Option String) (F : Filters) (pred : WorkRow → Bool)
    (colD colW : String)
    (hF : getFilters jsonLoads fmD = .ok F)
    (hcD : List.lookup sfD datanode_col_map = some colD)
    (hP : resolveWGFilter translateWG fmW = .ok pred)
    (hcW : List.lookup sfW workgraph_col_map = some colW) :
    (read_datanode_data db timeAgo jsonLoads skip limit sfD sortOrder fmD =
      .ok { total := (db.filter (fun r => filtersHold DataRow.col r F)).length,
            data := (((sortByLe (rowLe DataRow.col colD sortOrder)
                (db.filter (fun r => filtersHold DataRow.col r F))).drop
                  skip.toNat).take limit.toNat).map (projectDataRow timeAgo) })
    ∧ (∀ page, read_datanode_data db timeAgo jsonLoads skip limit sfD
        sortOrder fmD = .ok page → page.data.length ≤ limit.toNat)
    ∧ (∀ skip2 limit2 page2, read_datanode_data db timeAgo jsonLoads skip2
        limit2 sfD sortOrder fmD = .ok page2 →
        page2.total =
          (db.filter (fun r => filtersHold DataRow.col r F)).length)
    ∧ (read_workgraph_data wdb timeAgo translateWG skip limit sfW sortOrder
        fmW =
      .ok { total := (wdb.filter pred).length,
            data := (((sortByLe (rowLe WorkRow.col colW sortOrder)
                (wdb.filter pred)).drop skip.toNat).take limit.toNat).map
                  (projectWorkRow timeAgo) })
    ∧ (∀ page, read_workgraph_data wdb timeAgo translateWG skip limit sfW
        sortOrder fmW = .ok page → page.data.length ≤ limit.toNat)
    ∧ (∀ skip2 limit2 page2, read_workgraph_data wdb timeAgo translateWG
        skip2 limit2 sfW sortOrder fmW = .ok page2 →
        page2.total = (wdb.filter pred).length) := by
  have hmainD : ∀ sk lim : Int,
      read_datanode_data db timeAgo jsonLoads sk lim sfD sortOrder fmD =
        .ok { total :=
                (db.filter (fun r => filtersHold DataRow.col r F)).length,
              data := (((sortByLe (rowLe DataRow.col colD sortOrder)
                  (db.filter (fun r => filtersHold DataRow.col r F))).drop
                    sk.toNat).take lim.toNat).map
                      (projectDataRow timeAgo) } := by
    intro sk lim
    simp only [read_datanode_data, hF, hcD, keyGet, exc_bind_ok, exc_pure]
    rw [length_sortByLe]
  have hmainW : ∀ sk lim : Int,
      read_workgraph_data wdb timeAgo translateWG sk lim sfW sortOrder fmW =
        .ok { total := (wdb.filter pred).length,
              data := (((sortByLe (rowLe WorkRow.col colW sortOrder)
                  (wdb.filter pred)).drop sk.toNat).take lim.toNat).map
                    (projectWorkRow timeAgo) } := by
    intro sk lim
    simp only [read_workgraph_data, hP, hcW, keyGet, exc_bind_ok, exc_pure]
    rw [length_sortByLe]
  refine ⟨hmainD skip limit, ?_, ?_, hmainW skip limit, ?_, ?_⟩
  · intro page h
    rw [hmainD skip limit] at h
    cases h
    simp only [List.length_map, List.length_take]
    exact min_le_left _ _
  · intro sk2 lim2 page2 h
    rw [hmainD sk2 lim2] at h
    cases h
    rfl
  · intro page h
    rw [hmainW skip limit] at h
    cases h
    simp only [List.length_map, List.length_take]
    exact min_le_left _ _
  · intro sk2 lim2 page2 h
    rw [hmainW sk2 lim2] at h
    cases h
    rfl

/-- Concrete datanode rows for the C1 witness. -/
def c1db : List DataRow :=
  [{ id := 2, uuid := "u2", ctime := 20, node_type := "t", label := "b",
     description := "" },
   { id := 1, uuid := "u1", ctime := 10, node_type := "t", label := "a",
     description := "" }]

/-- Concrete workgraph rows for the C1 witness. -/
def c1wdb : List WorkRow :=
  [{ id := 4, uuid := "w4", ctime := 40, process_label := "WG",
     process_state := "finished", process_status := "", exit_status := 0,
     exit_message := "", label := "", description := "" },
   { id := 3, uuid := "w3", ctime := 30, process_label := "WG",
     process_state := "running", process_status := "", exit_status := 0,
     exit_message := "", label := "", description := "" }]

/-- C1 witness: the pipeline evaluated on concrete databases with
skip 0, limit 1, ascending pk order and no filter model. -/
theorem c1_list_query_pipeline_witness :
    read_datanode_data c1db (fun _ => "ago") (fun _ => Option.none) 0 1
      "pk" "asc" Option.none =
      .ok { total := 2,
            data := [{ pk := 1, uuid := "u1", ctime := "ago",
                       node_type := "t", label := "a", description := "" }] }
    ∧ read_workgraph_data c1wdb (fun _ => "ago")
      (fun _ => .ok (fun _ => true)) 0 1 "pk" "asc" Option.none =
      .ok { total := 2,
            data := [{ pk := 3, uuid := "w3", ctime := "ago",
                       process_label := "WG", state := "Running",
                       status := "", exit_status := 0, exit_message := "",
                       label := "", description := "" }] } := by
  have h := c1_list_query_pipeline c1db c1wdb (fun _ => "ago")
    (fun _ => Option.none) (fun _ => .ok (fun _ => true)) 0 1 "pk" "pk"
    "asc" Option.none Option.none (.plain []) (fun _ => true) "id" "id"
    rfl rfl rfl rfl
  exact ⟨h.1.trans rfl, h.2.2.2.1.trans rfl⟩

theorem descend_eq_foldlM (segs : List String) :
    ∀ g : GraphData, descend g segs = List.foldlM descendStep g segs := by
  induction segs with
  | nil => intro g; rfl
  | cons s rest ih =>
    intro g
    simp only [descend, List.foldlM_cons]
    cases h : descendStep g s with
    | ok g' => simp [h, exc_bind_ok, ih]
    | error e => simp [h, exc_bind_error]

/-- C2: for a first path segment naming a WORKGRAPH task
(case-insensitively), `read_sub_workgraph` descends exactly one nesting
level per remaining segment — `graph_data` goes to
`graph_data["tasks"][segment]["executor"]["graph_data"]`, i.e. the descent
is the left fold of `descendStep` over the remaining segments — and
returns the short-JSON view of the graph reached after the last segment;
a missing segment at any depth raises HTTP 404. -/
theorem c2_sub_workgraph_descent {σ : Type}
    (shortJson : GraphData → Option σ) (loadNode : Except Exc WGNode)
    (node : WGNode) (id : Int) (path : String) (s0 : String)
    (rest : List String) (hN : loadNode = .ok node)
    (hSeg : pySplit path (Char.ofNat 47) = s0 :: rest) :
    (List.lookup s0 node.wg_tasks = Option.none →
      read_sub_workgraph shortJson loadNode id path =
        .error (.httpExc 404 ("Workgraph " ++ toString id ++ "/" ++ path ++
          " not found, " ++ sQuote ++ s0 ++ sQuote)))
    ∧ (∀ ndata ex g0,
        List.lookup s0 node.wg_tasks = some ndata →
        pyUpper ndata.metadata.node_type = "WORKGRAPH" →
        List.lookup s0 node.task_executors = some ex →
        ex.graph_data = some g0 →
        (∀ g c, descend g0 rest = .ok g → shortJson g = some c →
          read_sub_workgraph shortJson loadNode id path =
            .ok (some { body := c, summary := ⟨[], [], []⟩,
                        parent_workgraphs :=
                          PyVal.list [.str node.process_label, .int id] ::
                            (s0 :: rest).map PyVal.str,
                        processes_info := [] }))
        ∧ (∀ k, descend g0 rest = .error (.keyError k) →
          read_sub_workgraph shortJson loadNode id path =
            .error (.httpExc 404 ("Workgraph " ++ toString id ++ "/" ++
              path ++ " not found, " ++ sQuote ++ k ++ sQuote))))
    ∧ (∀ (g : GraphData) (segs : List String),
        descend g segs = List.foldlM descendStep g segs) := by
  refine ⟨?_, ?_, fun g segs => descend_eq_foldlM segs g⟩
  · intro hA
    simp [read_sub_workgraph, hN, hSeg, hA, keyGet, catchKey, exc_bind_ok,
      exc_bind_error]
  · intro ndata ex g0 h1 h2 h3 h4
    constructor
    · intro g c hg hc
      simp [read_sub_workgraph, hN, hSeg, h1, h2, h3, h4, hg, hc, keyGet,
        catchKey, exc_bind_ok, exc_bind_error, exc_pure]
    · intro k hg
      simp [read_sub_workgraph, hN, hSeg, h1, h2, h3, h4, hg, keyGet,
        catchKey, exc_bind_ok, exc_bind_error, exc_pure]

/-- The inner graph reached by the C2 witness descent. -/
def c2g1 : GraphData := .mk "inner" "" [] []

/-- The executor graph of the first segment in the C2 witness. -/
def c2g0 : GraphData :=
  .mk "outer" ""
    [("sub", .mk "sub" ⟨"Normal"⟩ (some (.mk (some c2g1))))] []

/-- The concrete workgraph node of the C2 witness: one task `main` of
node_type `WorkGraph` whose executor holds `c2g0`. -/
def c2node : WGNode :=
  { wg_tasks := [("main", .mk "main" ⟨"WorkGraph"⟩ Option.none)],
    task_executors := [("main", .mk (some c2g0))],
    task_map_info := [],
    process_label := "PL" }

/-- C2 witness: a two-level descent `main/sub` through a concrete nested
workgraph, returning the short-JSON view of the inner graph. -/
theorem c2_sub_workgraph_descent_witness :
    read_sub_workgraph (fun g => some (GraphData.name g))
      (Except.ok c2node) 5 "main/sub" =
      .ok (some { body := "inner", summary := ⟨[], [], []⟩,
                  parent_workgraphs :=
                    [PyVal.list [.str "PL", .int 5], .str "main",
                      .str "sub"],
                  processes_info := [] }) :=
  (((c2_sub_workgraph_descent (fun g => some (GraphData.name g))
      (Except.ok c2node) c2node 5 "main/sub" "main" ["sub"] rfl
      (by decide)).2.1
    (.mk "main" ⟨"WorkGraph"⟩ Option.none) (.mk (some c2g0)) c2g0
    rfl rfl rfl rfl).1 c2g1 "inner" rfl rfl).trans rfl

theorem lookup_dictSet {α : Type} (k q : String) (v : α) :
    ∀ l : List (String × α),
      List.lookup q (dictSet l k v) =
        if q = k then some v else List.lookup q l := by
  intro l
  induction l with
  | nil =>
    by_cases h : q = k
    · subst h; simp [dictSet, List.lookup]
    · have hb : (q == k) = false := by simpa using h
      simp [dictSet, List.lookup, hb, h]
  | cons p rest ih =>
    obtain ⟨k', v'⟩ := p
    simp only [dictSet]
    by_cases h1 : k' = k
    · subst h1
      by_cases h2 : q = k'
      · subst h2
        simp [List.lookup]
      · have hb : (q == k') = false := by simpa using h2
        simp [List.lookup, hb, h2]
    · rw [if_neg h1]
      by_cases h2 : q = k'
      · subst h2
        have hqk : ¬ q = k := fun hh => h1 hh
        simp [List.lookup, if_neg hqk]
      · have hb : (q == k') = false := by simpa using h2
        simp [List.lookup, hb, ih]

theorem keys_dictSet {α : Type} (k q : String) (v : α) :
    ∀ l : List (String × α),
      q ∈ (dictSet l k v).map Prod.fst → q = k ∨ q ∈ l.map Prod.fst := by
  intro l
  induction l with
  | nil => simp [dictSet]
  | cons p rest ih =>
    obtain ⟨k', v'⟩ := p
    simp only [dictSet]
    by_cases h1 : k' = k
    · subst h1
      rw [if_pos rfl]
      simp
    · rw [if_neg h1]
      simp only [List.map_cons, List.mem_cons]
      rintro (h | h)
      · exact Or.inr (Or.inl h)
      · rcases ih h with h' | h'
        · exact Or.inl h'
        · exact Or.inr (Or.inr h')

theorem nodupKeys_dictSet {α : Type} (k : String) (v : α) :
    ∀ l : List (String × α), (l.map Prod.fst).Nodup →
      ((dictSet l k v).map Prod.fst).Nodup := by
  intro l
  induction l with
  | nil => simp [dictSet]
  | cons p rest ih =>
    obtain ⟨k', v'⟩ := p
    intro h
    simp only [List.map_cons, List.nodup_cons] at h
    simp only [dictSet]
    by_cases h1 : k' = k
    · subst h1
      rw [if_pos rfl]
      simp only [List.map_cons, List.nodup_cons]
      exact h
    · rw [if_neg h1]
      simp only [List.map_cons, List.nodup_cons]
      refine ⟨?_, ih h.2⟩
      intro hmem
      rcases keys_dictSet k k' v rest hmem with h' | h'
      · exact h1 h'
      · exact h.1 h'

theorem countP_key_eq_zero {α : Type} (k : String) :
    ∀ l : List (String × α), k ∉ l.map Prod.fst →
      l.countP (fun e => e.1 == k) = 0 := by
  intro l
  induction l with
  | nil => intro _; rfl
  | cons p rest ih =>
    obtain ⟨k', v'⟩ := p
    intro h
    simp only [List.map_cons, List.mem_cons, not_or] at h
    rw [List.countP_cons]
    have hb : ((k', v').1 == k) = false :=
      beq_eq_false_iff_ne.mpr (fun hh => h.1 hh.symm)
    simp [hb, ih h.2]

theorem countP_key_eq_one {α : Type} (k : String) (v : α) :
    ∀ l : List (String × α), (l.map Prod.fst).Nodup →
      List.lookup k l = some v →
      l.countP (fun e => e.1 == k) = 1 := by
  intro l
  induction l with
  | nil => intro _ h; simp [List.lookup] at h
  | cons p rest ih =>
    obtain ⟨k', v'⟩ := p
    intro hn hl
    simp only [List.map_cons, List.nodup_cons] at hn
    rw [List.countP_cons]
    by_cases hk : k = k'
    · subst hk
      have hz : rest.countP (fun e => e.1 == k) = 0 :=
        countP_key_eq_zero k rest hn.1
      simp [hz]
    · have hb' : ((k', v').1 == k) = false :=
        beq_eq_false_iff_ne.mpr (fun hh => hk hh.symm)
      have hb : (k == k') = false := beq_eq_false_iff_ne.mpr hk
      simp only [List.lookup, hb] at hl
      simp [hb', ih hn.2 hl]

theorem name_withName (t : GTask) (n : String) :
    (t.withName n).name = n := by
  cases t; rfl

theorem insertChildTasks_nodup (cd : GTask) (child : String) :
    ∀ (ps : List String) (acc : List (String × GTask)),
      (acc.map Prod.fst).Nodup →
      ((insertChildTasks ps cd child acc).map Prod.fst).Nodup := by
  intro ps
  induction ps with
  | nil => intro acc h; exact h
  | cons p ps ih =>
    intro acc h
    exact ih _ (nodupKeys_dictSet _ _ acc h)

theorem insertChildTasks_mono (cd : GTask) (child : String) :
    ∀ (ps : List String) (acc : List (String × GTask)) (q : String),
      (List.lookup q acc).isSome = true →
      (List.lookup q (insertChildTasks ps cd child acc)).isSome = true := by
  intro ps
  induction ps with
  | nil => intro acc q h; exact h
  | cons p ps ih =>
    intro acc q h
    refine ih _ q ?_
    rw [lookup_dictSet]
    by_cases hq : q = p ++ "_" ++ child
    · simp [hq]
    · simp [hq, h]

theorem insertChildTasks_names (cd : GTask) (child : String) :
    ∀ (ps : List String) (acc : List (String × GTask)) (q : String)
      (tk : GTask),
      List.lookup q (insertChildTasks ps cd child acc) = some tk →
      List.lookup q acc = some tk ∨ tk.name = q := by
  intro ps
  induction ps with
  | nil => intro acc q tk h; exact Or.inl h
  | cons p ps ih =>
    intro acc q tk h
    rcases ih _ q tk h with h' | h'
    · rw [lookup_dictSet] at h'
      by_cases hq : q = p ++ "_" ++ child
      · rw [if_pos hq] at h'
        have : tk = cd.withName (p ++ "_" ++ child) := (Option.some.inj h').symm
        subst this
        exact Or.inr (by rw [name_withName, hq])
      · rw [if_neg hq] at h'
        exact Or.inl h'
    · exact Or.inr h'

theorem insertChildTasks_present (cd : GTask) (child : String) :
    ∀ (ps : List String) (acc : List (String × GTask)) (p : String),
      p ∈ ps →
      (List.lookup (p ++ "_" ++ child)
        (insertChildTasks ps cd child acc)).isSome = true := by
  intro ps
  induction ps with
  | nil => intro acc p h; exact absurd h (List.not_mem_nil p)
  | cons p0 ps ih =>
    intro acc p h
    rcases List.mem_cons.mp h with h' | h'
    · subst h'
      refine insertChildTasks_mono cd child ps _ _ ?_
      rw [lookup_dictSet, if_pos rfl]
      rfl
    · exact ih _ p h'

theorem mapTasksAux_props (wgTasks : List (String × GTask))
    (prefixes : List String) :
    ∀ (cs : List String) (acc tasks : List (String × GTask)),
      mapTasksAux wgTasks prefixes cs acc = .ok tasks →
      ((acc.map Prod.fst).Nodup → (tasks.map Prod.fst).Nodup)
      ∧ (∀ q, (List.lookup q acc).isSome = true →
          (List.lookup q tasks).isSome = true)
      ∧ (∀ q tk, List.lookup q tasks = some tk →
          List.lookup q acc = some tk ∨ tk.name = q)
      ∧ (∀ p ∈ prefixes, ∀ c ∈ cs,
          (List.lookup (p ++ "_" ++ c) tasks).isSome = true) := by
  intro cs
  induction cs with
  | nil =>
    intro acc tasks h
    cases h
    exact ⟨fun h => h, fun q h => h, fun q tk h => Or.inl h,
      fun p _ c hc => absurd hc (List.not_mem_nil c)⟩
  | cons child cs ih =>
    intro acc tasks h
    cases hcd : List.lookup child wgTasks with
    | none =>
      rw [mapTasksAux, hcd] at h
      exact Except.noConfusion h
    | some cd =>
      rw [mapTasksAux, hcd] at h
      replace h : mapTasksAux wgTasks prefixes cs
          (insertChildTasks prefixes cd child acc) = .ok tasks := h
      obtain ⟨ihN, ihM, ihNm, ihP⟩ := ih _ _ h
      refine ⟨?_, ?_, ?_, ?_⟩
      · intro hn
        exact ihN (insertChildTasks_nodup cd child prefixes acc hn)
      · intro q hq
        exact ihM q (insertChildTasks_mono cd child prefixes acc q hq)
      · intro q tk hq
        rcases ihNm q tk hq with h' | h'
        · exact insertChildTasks_names cd child prefixes acc q tk h'
        · exact Or.inr h'
      · intro p hp c hc
        rcases List.mem_cons.mp hc with h' | h'
        · subst h'
          exact ihM _ (insertChildTasks_present cd c prefixes acc p hp)
        · exact ihP p hp c h'

theorem foldl_append_map {α β : Type} (f : α → β) :
    ∀ (l : List α) (acc : List β),
      l.foldl (fun a x => a ++ [f x]) acc = acc ++ l.map f := by
  intro l
  induction l with
  | nil => intro acc; simp
  | cons x l ih =>
    intro acc
    simp [ih, List.append_assoc]

theorem mapLinksAux_eq (children prefixes : List String) :
    ∀ (ls acc : List Link),
      mapLinksAux children prefixes ls acc =
        acc ++ (ls.filter (fun l => children.contains l.from_node &&
            children.contains l.to_node)).flatMap
          (fun l => prefixes.map (fun p => prefLink p l)) := by
  intro ls
  induction ls with
  | nil => intro acc; simp [mapLinksAux]
  | cons l ls ih =>
    intro acc
    rw [mapLinksAux]
    by_cases hq : (children.contains l.from_node &&
        children.contains l.to_node) = true
    · rw [if_pos hq, ih, foldl_append_map, List.filter_cons, if_pos hq]
      simp only [List.flatMap_cons, List.append_assoc]
    · rw [if_neg hq, ih, List.filter_cons, if_neg hq]

/-- C3: for a first path segment naming a MAP task, the graph built by
`read_sub_workgraph` contains exactly one task named `prefix_child` for
every pair drawn from the map info's prefixes and children (the stored
task being the child's data renamed), and its links are exactly one
prefixed copy per prefix of every map-info link whose two endpoints are
children — sockets copied unchanged — with links having an endpoint
outside the children list contributing nothing. -/
theorem c3_map_expansion {σ : Type} (shortJson : GraphData → Option σ)
    (loadNode : Except Exc WGNode) (node : WGNode) (id : Int)
    (path : String) (s0 : String) (rest : List String) (ndata : GTask)
    (mi : MapInfo) (g : GraphData)
    (hN : loadNode = .ok node)
    (hSeg : pySplit path (Char.ofNat 47) = s0 :: rest)
    (h1 : List.lookup s0 node.wg_tasks = some ndata)
    (h2 : pyUpper ndata.metadata.node_type = "MAP")
    (h3 : List.lookup s0 node.task_map_info = some mi)
    (hMG : mapGraphData node.wg_tasks mi
      ((s0 :: rest).getLast (List.cons_ne_nil s0 rest)) = .ok g) :
    (∀ p ∈ mi.prefixes, ∀ c ∈ mi.children,
      (∃ tk, List.lookup (p ++ "_" ++ c) g.tasks = some tk ∧
        tk.name = p ++ "_" ++ c)
      ∧ g.tasks.countP (fun e => e.1 == p ++ "_" ++ c) = 1)
    ∧ g.links = (mi.links.filter (fun l =>
        mi.children.contains l.from_node &&
        mi.children.contains l.to_node)).flatMap
          (fun l => mi.prefixes.map (fun p => prefLink p l))
    ∧ (∀ c, shortJson g = some c →
      read_sub_workgraph shortJson loadNode id path =
        .ok (some { body := c, summary := ⟨[], [], []⟩,
                    parent_workgraphs :=
                      PyVal.list [.str node.process_label, .int id] ::
                        (s0 :: rest).map PyVal.str,
                    processes_info := [] })) := by
  cases hT : mapTasksAux node.wg_tasks mi.prefixes mi.children [] with
  | error e =>
    rw [mapGraphData, hT] at hMG
    exact absurd hMG (by simp [exc_bind_error])
  | ok tasks =>
    have hg : g = GraphData.mk
        ((s0 :: rest).getLast (List.cons_ne_nil s0 rest)) "" tasks
        (mapLinksAux mi.children mi.prefixes mi.links []) := by
      rw [mapGraphData, hT] at hMG
      simp only [exc_bind_ok, exc_pure] at hMG
      exact (Except.ok.inj hMG).symm
    obtain ⟨hNodup, hMono, hNames, hPresent⟩ :=
      mapTasksAux_props node.wg_tasks mi.prefixes mi.children [] tasks hT
    have hTasksNodup : (tasks.map Prod.fst).Nodup := hNodup (by simp)
    refine ⟨?_, ?_, ?_⟩
    · intro p hp c hc
      have hS := hPresent p hp c hc
      obtain ⟨tk, htk⟩ := Option.isSome_iff_exists.mp hS
      have hname : tk.name = p ++ "_" ++ c := by
        rcases hNames _ tk htk with h' | h'
        · simp [List.lookup] at h'
        · exact h'
      constructor
      · exact ⟨tk, by rw [hg]; exact htk, hname⟩
      · rw [hg]
        exact countP_key_eq_one _ tk tasks hTasksNodup htk
    · rw [hg]
      show mapLinksAux mi.children mi.prefixes mi.links [] = _
      rw [mapLinksAux_eq]
      simp
    · intro c hc
      simp [read_sub_workgraph, hN, hSeg, h1, h2, h3, hMG, hc, keyGet,
        catchKey, exc_bind_ok, exc_pure]

/-- Map info of the C3 witness: two children, two prefixes, one link
between children and one link leaving the children set. -/
def c3mi : MapInfo :=
  { children := ["a", "b"], prefixes := ["p1", "p2"],
    links := [{ from_node := "a", to_node := "b", from_socket := "out",
                to_socket := "inp" },
              { from_node := "a", to_node := "z", from_socket := "out",
                to_socket := "inp" }] }

/-- The concrete node of the C3 witness: a `Map` task `m` plus its two
child tasks. -/
def c3node : WGNode :=
  { wg_tasks := [("m", .mk "m" ⟨"Map"⟩ Option.none),
                 ("a", .mk "a" ⟨"Normal"⟩ Option.none),
                 ("b", .mk "b" ⟨"Normal"⟩ Option.none)],
    task_executors := [],
    task_map_info := [("m", c3mi)],
    process_label := "PL" }

/-- The graph the MAP expansion builds in the C3 witness. -/
def c3g : GraphData :=
  GraphData.mk "m" ""
    [("p1_a", .mk "p1_a" ⟨"Normal"⟩ Option.none),
     ("p2_a", .mk "p2_a" ⟨"Normal"⟩ Option.none),
     ("p1_b", .mk "p1_b" ⟨"Normal"⟩ Option.none),
     ("p2_b", .mk "p2_b" ⟨"Normal"⟩ Option.none)]
    [{ from_node := "p1_a", to_node := "p1_b", from_socket := "out",
       to_socket := "inp" },
     { from_node := "p2_a", to_node := "p2_b", from_socket := "out",
       to_socket := "inp" }]

/-- C3 witness: the concrete MAP expansion has exactly one `p1_a` task,
exactly the two prefixed copies of the qualifying link, and the endpoint
returns its short-JSON view. -/
theorem c3_map_expansion_witness :
    c3g.tasks.countP (fun e => e.1 == "p1" ++ "_" ++ "a") = 1
    ∧ c3g.links = [{ from_node := "p1_a", to_node := "p1_b",
                     from_socket := "out", to_socket := "inp" },
                   { from_node := "p2_a", to_node := "p2_b",
                     from_socket := "out", to_socket := "inp" }]
    ∧ read_sub_workgraph (fun g => some (GraphData.name g))
        (Except.ok c3node) 7 "m" =
        .ok (some { body := "m", summary := ⟨[], [], []⟩,
                    parent_workgraphs :=
                      [PyVal.list [.str "PL", .int 7], .str "m"],
                    processes_info := [] }) := by
  have h := c3_map_expansion (fun g => some (GraphData.name g))
    (Except.ok c3node) c3node 7 "m" "m" []
    (.mk "m" ⟨"Map"⟩ Option.none) c3mi c3g rfl (by decide) rfl rfl rfl rfl
  exact ⟨(h.1 "p1" (by decide) "a" (by decide)).2, h.2.1.trans rfl,
    (h.2.2 "m" rfl).trans rfl⟩

/-- C8 counterexample: a filter item with field `pk` and the truthy JSON
array value `["x"]` is not silently ignored — `int(value)` raises
`TypeError`, which `except ValueError` does not catch, so the whole
request fails instead of contributing no filter; an item whose field is a
JSON array is likewise not ignored — `field not in field_map` raises
`TypeError` (unhashable type); and a present-but-empty `filterModel` is
not valid JSON yet produces no HTTP 400 because of the truthiness guard
`if filterModel:`. -/
theorem c8_filter_translation_counterexample :
    translateItem []
      (.dict [("field", .str "pk"), ("value", .list [.str "x"])]) =
      .error (.typeError "int() argument must be a string, not list")
    ∧ translateItem []
      (.dict [("field", .list [.str "pk"]), ("value", .str "x")]) =
      .error (.typeError ("unhashable type: " ++ sQuote ++ "list" ++
        sQuote))
    ∧ read_datanode_data [] (fun _ => "")
        (fun s => if s = "x" then
          some (.dict [("items", .list [.dict [("field", .str "pk"),
            ("value", .list [.str "x"])]])])
        else Option.none) 0 15 "pk" "desc" (some "x") =
      .error (.typeError "int() argument must be a string, not list")
    ∧ read_datanode_data [] (fun _ => "") (fun _ => Option.none) 0 15 "pk"
        "desc" (some "") = .ok { total := 0, data := [] } :=
  ⟨rfl, rfl, rfl, rfl⟩

/-- C8 (amended): a present, non-empty, invalid filterModel yields HTTP
400 with detail "Invalid filterModel JSON" (a present empty string is
treated as absent); items with a falsy value, an unknown string field, a
hashable non-string field (null, boolean, number), or a pk value that is
a string not parseable by Python int() are silently ignored and
contribute no filter; a truthy item whose field is a JSON array or
object raises an uncaught TypeError (unhashable type), and a truthy
JSON-array pk value makes int() raise an uncaught TypeError; and
contains/equals/is all translate to the same surrounding-% `like`
filter. -/
theorem c8_filter_translation_contract :
    (∀ (db : List DataRow) (timeAgo : Int → String)
      (jsonLoads : String → Option PyVal) (skip limit : Int)
      (sf so s : String), s ≠ "" → jsonLoads s = Option.none →
      read_datanode_data db timeAgo jsonLoads skip limit sf so (some s) =
        .error (.httpExc 400 "Invalid filterModel JSON"))
    ∧ (∀ jsonLoads, getFilters jsonLoads (some "") = .ok (.plain []))
    ∧ (∀ (filters : PlainFilter) (kvs : List (String × PyVal)),
      truthy ((List.lookup "value" kvs).getD .none) = false →
      translateItem filters (.dict kvs) = .ok filters)
    ∧ (∀ (filters : PlainFilter) (kvs : List (String × PyVal)) (f : String),
      truthy ((List.lookup "value" kvs).getD .none) = true →
      (List.lookup "field" kvs).getD .none = .str f →
      List.lookup f field_map = Option.none →
      translateItem filters (.dict kvs) = .ok filters)
    ∧ (∀ (filters : PlainFilter) (kvs : List (String × PyVal)),
      truthy ((List.lookup "value" kvs).getD .none) = true →
      ((List.lookup "field" kvs).getD .none = .none ∨
        (∃ b, (List.lookup "field" kvs).getD .none = .bool b) ∨
        (∃ n, (List.lookup "field" kvs).getD .none = .int n)) →
      translateItem filters (.dict kvs) = .ok filters)
    ∧ (∀ (filters : PlainFilter) (kvs : List (String × PyVal))
      (xs : List PyVal),
      truthy ((List.lookup "value" kvs).getD .none) = true →
      (List.lookup "field" kvs).getD .none = .list xs →
      translateItem filters (.dict kvs) =
        .error (.typeError ("unhashable type: " ++ sQuote ++ "list" ++
          sQuote)))
    ∧ (∀ (filters : PlainFilter) (kvs : List (String × PyVal))
      (m : List (String × PyVal)),
      truthy ((List.lookup "value" kvs).getD .none) = true →
      (List.lookup "field" kvs).getD .none = .dict m →
      translateItem filters (.dict kvs) =
        .error (.typeError ("unhashable type: " ++ sQuote ++ "dict" ++
          sQuote)))
    ∧ (∀ (filters : PlainFilter) (kvs : List (String × PyVal)) (vs : String),
      (List.lookup "field" kvs).getD .none = .str "pk" →
      (List.lookup "value" kvs).getD .none = .str vs →
      truthy (.str vs) = true → pyParseInt vs = Option.none →
      translateItem filters (.dict kvs) = .ok filters)
    ∧ (∀ (filters : PlainFilter) (kvs : List (String × PyVal))
      (xs : List PyVal),
      (List.lookup "field" kvs).getD .none = .str "pk" →
      (List.lookup "value" kvs).getD .none = .list xs →
      truthy (.list xs) = true →
      translateItem filters (.dict kvs) =
        .error (.typeError "int() argument must be a string, not list"))
    ∧ (∀ (filters : PlainFilter) (f colName : String) (v : PyVal)
      (op : String),
      List.lookup f field_map = some colName → colName ≠ "id" →
      truthy v = true → op ∈ ["contains", "equals", "is"] →
      translateItem filters
        (.dict [("field", .str f), ("value", v), ("operator", .str op)]) =
        .ok (dictSet filters colName
          (.like ("%" ++ pyStr v ++ "%")))) := by
  refine ⟨?_, ?_, ?_, ?_, ?_, ?_, ?_, ?_, ?_, ?_⟩
  · intro db timeAgo jsonLoads skip limit sf so s hs hj
    simp [read_datanode_data, getFilters, hs, hj, exc_bind_error]
  · intro jsonLoads
    rfl
  · intro filters kvs h
    simp [translateItem, h]
  · intro filters kvs f hv hf hlook
    simp [translateItem, hv, hf, hlook]
  · intro filters kvs hv hf
    rcases hf with hfv | ⟨b, hfv⟩ | ⟨n, hfv⟩ <;>
      simp [translateItem, hv, hfv]
  · intro filters kvs xs hv hfv
    simp [translateItem, hv, hfv]
  · intro filters kvs m hv hfv
    simp [translateItem, hv, hfv]
  · intro filters kvs vs hf hvv hv hparse
    simp [translateItem, hf, hvv, hv, pyInt, hparse, field_map,
      List.lookup]
  · intro filters kvs xs hf hvv hv
    simp [translateItem, hf, hvv, hv, pyInt, field_map, List.lookup]
  · intro filters f colName v op hcol hne hv hop
    simp only [List.mem_cons, List.not_mem_nil, or_false] at hop
    rcases hop with rfl | rfl | rfl
    · have h1 : List.lookup "value" [("field", PyVal.str f), ("value", v),
          ("operator", PyVal.str "contains")] = some v := rfl
      have h2 : List.lookup "operator" [("field", PyVal.str f), ("value", v),
          ("operator", PyVal.str "contains")] = some (PyVal.str "contains") :=
        rfl
      simp [translateItem, hv, hcol, hne, h1, h2]
    · have h1 : List.lookup "value" [("field", PyVal.str f), ("value", v),
          ("operator", PyVal.str "equals")] = some v := rfl
      have h2 : List.lookup "operator" [("field", PyVal.str f), ("value", v),
          ("operator", PyVal.str "equals")] = some (PyVal.str "equals") := rfl
      simp [translateItem, hv, hcol, hne, h1, h2]
    · have h1 : List.lookup "value" [("field", PyVal.str f), ("value", v),
          ("operator", PyVal.str "is")] = some v := rfl
      have h2 : List.lookup "operator" [("field", PyVal.str f), ("value", v),
          ("operator", PyVal.str "is")] = some (PyVal.str "is") := rfl
      simp [translateItem, hv, hcol, hne, h1, h2]

/-- C8 witness: concrete instances of the amended behaviour — an invalid
non-empty filterModel gives the 400, a falsy-valued item, an
unknown-string-field item, a numeric-field item and a pk string that
Python int() cannot parse are dropped, and the three operators produce
the identical like filter. -/
theorem c8_filter_translation_witness :
    read_datanode_data [] (fun _ => "") (fun _ => Option.none) 0 15 "pk"
      "desc" (some "not json") =
      .error (.httpExc 400 "Invalid filterModel JSON")
    ∧ translateItem [] (.dict [("field", .str "label"),
        ("value", .str "")]) = .ok []
    ∧ translateItem [] (.dict [("field", .str "uuid"),
        ("value", .str "x")]) = .ok []
    ∧ translateItem [] (.dict [("field", .int 3),
        ("value", .str "x")]) = .ok []
    ∧ translateItem [] (.dict [("field", .str "pk"),
        ("value", .str "abc")]) = .ok []
    ∧ translateItem [] (.dict [("field", .str "label"),
        ("value", .str "x"), ("operator", .str "equals")]) =
      .ok (dictSet [] "label" (.like ("%" ++ pyStr (.str "x") ++ "%"))) :=
  ⟨(c8_filter_translation_contract).1 [] (fun _ => "") (fun _ => Option.none)
      0 15 "pk" "desc" "not json" (by decide) rfl,
   (c8_filter_translation_contract).2.2.1 []
      [("field", .str "label"), ("value", .str "")] rfl,
   (c8_filter_translation_contract).2.2.2.1 []
      [("field", .str "uuid"), ("value", .str "x")] "uuid" rfl rfl rfl,
   (c8_filter_translation_contract).2.2.2.2.1 []
      [("field", .int 3), ("value", .str "x")] rfl
      (Or.inr (Or.inr ⟨3, rfl⟩)),
   (c8_filter_translation_contract).2.2.2.2.2.2.2.1 []
      [("field", .str "pk"), ("value", .str "abc")] "abc" rfl rfl rfl rfl,
   (c8_filter_translation_contract).2.2.2.2.2.2.2.2.2 [] "label" "label"
      (.str "x") "equals" rfl (by decide) rfl (by decide)⟩
